import Mathlib

/-!
# Verification of the nbastats.fun live-game pipeline

Shallow embedding of the play-processing pipeline of the repository
(src/app.py and src/balldontlie_live.py): the play normalizer
(`convert_play_to_action`), the per-player stat tracker
(`track_player_stats_from_play`), the milestone detectors
(`check_stat_milestones`, `check_big_lead_milestone`), the message generator
(`generate_messages_from_play`), and the history store logic of the
`api_beta_live_feed` route (message dedup, score-timeline dedup, finalize
with replay reconstruction).

External collaborators (the LLM commentary service and the regex-based
free-text name extraction helpers) only influence the rendered `text` of
messages, never which messages are produced or how state evolves; they are
modelled as explicit function parameters, and every theorem is universally
quantified over them.

Python integers are modelled as `Nat` where the source values are
non-negative (scores, counters) and as `Int` where differences occur;
Python strings as `String`; Python `in` on strings as substring containment;
Python sets of strings as `List String` with guarded insertion.
-/

namespace NbaStats

/-! ## String helpers: Python `in` (substring test) -/

/-- True iff the char list `p` is an initial segment
of `l` (helper for the substring test). -/
def startsWithChars : List Char → List Char → Bool
  | [], _ => true
  | _ :: _, [] => false
  | p :: ps, c :: cs => p == c && startsWithChars ps cs

/-- True iff `p` occurs contiguously inside `l`. -/
def hasSubChars (p : List Char) : List Char → Bool
  | [] => startsWithChars p []
  | c :: cs => startsWithChars p (c :: cs) || hasSubChars p cs

/-- Python `pat in s` on strings: substring containment. -/
def strContains (s pat : String) : Bool :=
  hasSubChars pat.toList s.toList

/-- Python `str.lower()`. -/
def lowerStr (s : String) : String :=
  String.mk (s.toList.map Char.toLower)

/-! ## Data model -/

/-- One play-by-play event as delivered by the upstream feed (the dict shape
consumed by `src/app.py` and `src/balldontlie_live.py`): `order` is the
monotonic sequence number, `type` the provider category field, `text` the
free-text description, `score_value` is `none` when the field is absent
(Python `None`). A play with no team has `teamAbbr = ""` (the code reads
`(play.get('team') or {}).get('abbreviation', '')`). -/
structure Play where
  order : Nat
  period : Nat
  clock : String
  home_score : Nat
  away_score : Nat
  teamAbbr : String
  type : String
  text : String
  scoring_play : Bool
  score_value : Option Nat
  shooting_play : Bool
  deriving Repr, DecidableEq

/-- The pair of team abbreviations carried by `game_info` in the source. -/
structure GameInfo where
  home_team : String
  away_team : String
  deriving Repr, DecidableEq

/-- A commentary message dict as built by the source: `bot` is the
persona/voice, `type` the message kind, `action_number` the originating
play's sequence order. The wall-clock `timestamp` field of the source is
dropped: it never takes part in any decision (in particular not in the
dedup key). -/
structure Message where
  bot : String
  text : String
  type : String
  team : String := ""
  score : String := ""
  period : Nat := 0
  clock : String := ""
  action_number : Nat := 0
  is_lead_change : Bool := false
  is_largest_lead : Bool := false
  lead_amount : Nat := 0
  deriving Repr, DecidableEq

/-- Cumulative per-player counters of `_dev_live_player_stats` (src/app.py
line 1034): points, rebounds, assists, blocks, steals and team. -/
structure PlayerStats where
  pts : Nat := 0
  reb : Nat := 0
  ast : Nat := 0
  blk : Nat := 0
  stl : Nat := 0
  team : String := ""
  deriving Repr, DecidableEq

/-- The `_dev_live_largest_leads[game_id]` entry: largest lead seen so far
for each side. -/
structure LargestLeads where
  home : Nat := 0
  away : Nat := 0
  deriving Repr, DecidableEq

/-! ## Play normalizer: `convert_play_to_action` (src/balldontlie_live.py 228) -/

/-- The action dict produced by `convert_play_to_action`. -/
structure Action where
  actionNumber : Nat
  period : Nat
  clock : String
  scoreHome : Nat
  scoreAway : Nat
  teamTricode : String
  actionType : String
  subType : String
  description : String
  isScoring : Bool
  shotResult : String
  deriving Repr, DecidableEq

/-- Embedding of `convert_play_to_action` (src/balldontlie_live.py lines
228-284): the ordered if/elif chain that maps the lower-cased provider
category field to the coarse `actionType`; the free-text description is not
consulted by this chain. -/
def convert_play_to_action (play : Play) : Action :=
  let play_type := lowerStr play.type
  let action_type :=
    if strContains play_type "shot" || strContains play_type "dunk" ||
        strContains play_type "layup" then
      (if play.score_value = some 2 then "2pt" else "3pt")
    else if strContains play_type "free throw" then "freethrow"
    else if strContains play_type "rebound" then "rebound"
    else if strContains play_type "turnover" then "turnover"
    else if strContains play_type "steal" then "steal"
    else if strContains play_type "block" then "block"
    else if strContains play_type "foul" then "foul"
    else if strContains play_type "timeout" then "timeout"
    else if strContains play_type "jumpball" then "jumpball"
    else if strContains play_type "period" then "period"
    else "unknown"
  { actionNumber := play.order
    period := play.period
    clock := play.clock
    scoreHome := play.home_score
    scoreAway := play.away_score
    teamTricode := play.teamAbbr
    actionType := action_type
    subType := play_type
    description := play.text
    isScoring := play.scoring_play
    shotResult := if play.scoring_play then "Made" else "Missed" }

/-! ## Milestone detector (src/app.py 1070-1220)

`generate_historian_milestone_message` renders a historian message through
the external LLM collaborator (`generate_llm_commentary`), falling back to
a literal string when the collaborator returns nothing; the collaborator is
modelled by the parameter `llm : String → Option String` (milestone type ↦
rewritten text). Every code path of the Python function yields a message
(dict) with `bot = 'historian'` and `type = 'milestone'`. -/

/-- Python `str.upper()` (used on the stat names `pts`/`reb`/... ). -/
def upperStr (s : String) : String :=
  String.mk (s.toList.map Char.toUpper)

/-- Stable insertion into a list sorted descending by value: an element is
placed before the first entry whose value does not exceed it. -/
def insertByValDesc (x : String × Nat) : List (String × Nat) → List (String × Nat)
  | [] => [x]
  | y :: ys => if x.2 < y.2 then y :: insertByValDesc x ys else x :: y :: ys

/-- Stable descending sort by value (insertion sort). -/
def sortByValDesc : List (String × Nat) → List (String × Nat)
  | [] => []
  | x :: xs => insertByValDesc x (sortByValDesc xs)

/-- The `(name, value)` pairs `[('pts', pts), ...]` sorted descending by
value as in src/app.py 1122-1123 (Python `list.sort` is stable, so ties keep
the original `pts, reb, ast, blk, stl` order). -/
def statPairsSorted (s : PlayerStats) : List (String × Nat) :=
  sortByValDesc [("pts", s.pts), ("reb", s.reb), ("ast", s.ast), ("blk", s.blk), ("stl", s.stl)]

/-- Fallback text of `generate_historian_milestone_message` for each
milestone type (src/app.py 1250-1257); only the integer stats feed these
strings, the float season averages only feed the LLM context. -/
def milestoneFallback (milestone_type player : String) (s : PlayerStats)
    (threshold lead_amount : Nat) : String :=
  if milestone_type = "triple_double" then
    "📜 " ++ player ++ " records a triple-double with " ++ toString s.pts ++ " pts, "
      ++ toString s.reb ++ " reb, " ++ toString s.ast ++ " ast!"
  else if milestone_type = "double_double" then
    let pairs := statPairsSorted s
    let p1 := pairs.headD ("pts", 0)
    let p2 := (pairs.drop 1).headD ("reb", 0)
    "📜 " ++ player ++ " has a double-double: " ++ toString p1.2 ++ " " ++ upperStr p1.1
      ++ ", " ++ toString p2.2 ++ " " ++ upperStr p2.1
  else if milestone_type = "scoring_milestone" then
    "📜 " ++ player ++ " hits " ++ toString s.pts ++ " points! (" ++ toString threshold
      ++ "+ game)"
  else if milestone_type = "blocks_milestone" then
    "📜 " ++ player ++ " with " ++ toString s.blk ++ " blocks tonight! Defensive showcase."
  else if milestone_type = "steals_milestone" then
    "📜 " ++ player ++ " has " ++ toString s.stl ++ " steals! Picking pockets all night."
  else
    "📜 " ++ player ++ " leads by " ++ toString lead_amount
      ++ " - historically, teams hold this lead ~95% of the time."

/-- Embedding of `generate_historian_milestone_message` (src/app.py
1223-1269): historian-voice milestone message whose text is the LLM
rewrite when available, else the literal fallback; for `big_lead` the
`team` field is empty (the context carries no team). -/
def generate_historian_milestone_message (llm : String → Option String)
    (milestone_type player team : String) (s : PlayerStats)
    (threshold lead_amount : Nat) : Message :=
  { bot := "historian"
    text := (llm milestone_type).getD
      (milestoneFallback milestone_type player s threshold lead_amount)
    type := "milestone"
    team := if milestone_type = "big_lead" then "" else team }

/-- The announced-milestone key `f"{player}_triple_double"`. -/
def tripleKey (player : String) : String := player ++ "_triple_double"

/-- The announced-milestone key `f"{player}_double_double"`. -/
def doubleKey (player : String) : String := player ++ "_double_double"

/-- The announced-milestone key `f"{player}_{threshold}pts"`. -/
def ptsKey (player : String) (threshold : Nat) : String :=
  player ++ "_" ++ toString threshold ++ "pts"

/-- The announced-milestone key `f"{player}_{threshold}blk"`. -/
def blkKey (player : String) (threshold : Nat) : String :=
  player ++ "_" ++ toString threshold ++ "blk"

/-- The announced-milestone key `f"{player}_{threshold}stl"`. -/
def stlKey (player : String) (threshold : Nat) : String :=
  player ++ "_" ++ toString threshold ++ "stl"

/-- Python `sum([1 for v in [pts, reb, ast] if v >= 10])` (src/app.py 1101): the
triple-double check counts only points, rebounds and assists. -/
def categories10 (s : PlayerStats) : Nat :=
  (([s.pts, s.reb, s.ast]).filter (fun v => 10 ≤ v)).length

/-- Python `sum([1 for v in [pts, reb, ast, blk, stl] if v >= 10])` (src/app.py
1116): the double-double check counts all five categories. -/
def categories10dd (s : PlayerStats) : Nat :=
  (([s.pts, s.reb, s.ast, s.blk, s.stl]).filter (fun v => 10 ≤ v)).length

/-- One of the three threshold loops of `check_stat_milestones`
(src/app.py 1138-1152, 1155-1167, 1170-1182): walk the ascending tier list;
at the first tier that is reached, announce-and-emit it if its key is new
and stop; if its key is already announced, keep scanning higher tiers. -/
def tierLoop (mkKey : Nat → String) (mkMsg : Nat → Message) (stat : Nat)
    (announced : List String) : List Nat → List String × List Message
  | [] => (announced, [])
  | t :: ts =>
    if t ≤ stat then
      if mkKey t ∈ announced then tierLoop mkKey mkMsg stat announced ts
      else (mkKey t :: announced, [mkMsg t])
    else tierLoop mkKey mkMsg stat announced ts

/-- Triple-double section of `check_stat_milestones` (src/app.py
1100-1113): fires when all of pts/reb/ast are ≥ 10 (`categories_10 >= 3`)
and the key is new. -/
def tripleSection (llm : String → Option String) (player : String)
    (s : PlayerStats) (announced : List String) : List String × List Message :=
  if 3 ≤ categories10 s then
    if tripleKey player ∈ announced then (announced, [])
    else (tripleKey player :: announced,
      [generate_historian_milestone_message llm "triple_double" player s.team s 0 0])
  else (announced, [])

/-- Double-double section of `check_stat_milestones` (src/app.py
1115-1135): fires when at least two of the five categories are ≥ 10 and the
pts/reb/ast triple-double condition does not hold, and the key is new. -/
def doubleSection (llm : String → Option String) (player : String)
    (s : PlayerStats) (announced : List String) : List String × List Message :=
  if 2 ≤ categories10dd s ∧ categories10 s < 3 then
    if doubleKey player ∈ announced then (announced, [])
    else (doubleKey player :: announced,
      [generate_historian_milestone_message llm "double_double" player s.team s 0 0])
  else (announced, [])

/-- Looks up a player in the `_dev_live_player_stats[game_id]` mapping
(modelled as an association list). -/
def lookupStats (stats : List (String × PlayerStats)) (player : String) :
    Option PlayerStats :=
  (stats.find? (fun e => e.1 = player)).map (·.2)

/-- The three tier loops of `check_stat_milestones` in source order
(scoring tiers 30/40/50/60 at src/app.py 1138-1152, blocks tiers
5/10/15/20 at 1155-1167, steals tiers 5/10/15/20 at 1170-1182), threading
the announced-key set. -/
def tierSections (llm : String → Option String) (player : String)
    (s : PlayerStats) (announced : List String) : List String × List Message :=
  let r3 := tierLoop (ptsKey player)
    (fun t => generate_historian_milestone_message llm "scoring_milestone" player s.team s t 0)
    s.pts announced [30, 40, 50, 60]
  let r4 := tierLoop (blkKey player)
    (fun t => generate_historian_milestone_message llm "blocks_milestone" player s.team s t 0)
    s.blk r3.1 [5, 10, 15, 20]
  let r5 := tierLoop (stlKey player)
    (fun t => generate_historian_milestone_message llm "steals_milestone" player s.team s t 0)
    s.stl r4.1 [5, 10, 15, 20]
  (r5.1, r3.2 ++ r4.2 ++ r5.2)

/-- Embedding of `check_stat_milestones` (src/app.py 1070-1184) for one
game: given the per-player stats map and the announced-key set, returns the
updated announced set and the milestone messages for `player`, in source
order (triple-double, double-double, then the three tier loops). -/
def check_stat_milestones (llm : String → Option String)
    (stats : List (String × PlayerStats)) (announced : List String)
    (player : String) : List String × List Message :=
  match lookupStats stats player with
  | none => (announced, [])
  | some s =>
    let r1 := tripleSection llm player s announced
    let r2 := doubleSection llm player s r1.1
    let r3 := tierSections llm player s r2.1
    (r3.1, r1.2 ++ r2.2 ++ r3.2)

/-- The big-lead key `f"{leader}_{threshold}lead_Q{period}"`. -/
def bigLeadKey (leader : String) (threshold period : Nat) : String :=
  leader ++ "_" ++ toString threshold ++ "lead_Q" ++ toString period

/-- The descending threshold loop of `check_big_lead_milestone`
(src/app.py 1207-1218): at the first (hence highest) tier that the lead
reaches, announce-and-emit it if its key is new, else stop without
scanning lower tiers. -/
def bigLeadLoop (llm : String → Option String) (leader opponent : String)
    (lead_diff period : Nat) (announced : List String) :
    List Nat → List String × Option Message
  | [] => (announced, none)
  | t :: ts =>
    if t ≤ lead_diff then
      if bigLeadKey leader t period ∈ announced then (announced, none)
      else (bigLeadKey leader t period :: announced,
        some (generate_historian_milestone_message llm "big_lead" leader opponent
          ({} : PlayerStats) 0 lead_diff))
    else bigLeadLoop llm leader opponent lead_diff period announced ts

/-- Python `lead_diff = abs(home_score - away_score)` (src/app.py 1198). -/
def leadDiffN (home_score away_score : Nat) : Nat :=
  ((home_score : Int) - (away_score : Int)).natAbs

/-- Embedding of `check_big_lead_milestone` (src/app.py 1187-1220): below a
20-point lead nothing happens; otherwise the tiers 30/25/20 are scanned in
descending order with the per-(leader, tier, period) announced keys. -/
def check_big_lead_milestone (llm : String → Option String)
    (announced : List String) (home_score away_score : Nat)
    (home_team away_team : String) (period : Nat) :
    List String × Option Message :=
  if leadDiffN home_score away_score < 20 then (announced, none)
  else
    bigLeadLoop llm
      (if away_score < home_score then home_team else away_team)
      (if away_score < home_score then away_team else home_team)
      (leadDiffN home_score away_score) period announced [30, 25, 20]

/-! ## Message generator: `generate_messages_from_play`
(src/balldontlie_live.py 307-707)

The regex-based name extraction helpers and the LLM collaborator influence
only the rendered `text` of messages (never which messages are produced or
which types/personas they get), and are modelled by the `TextFns`
parameter; all theorems below are universally quantified over it. -/

/-- External/text-level collaborators of the message pipeline:

* `extractPlayer` — `extract_player_from_text` (src/balldontlie_live.py
  287-304), a regex extraction used only inside rendered text and as the
  acting-player key of the stat tracker;
* `blockerOf`/`stealerOf` — the local regex refinements of
  src/balldontlie_live.py 385-388 and 401-404 (default player, text);
* `fouledOf` — the `' on '`-split fouled-player extraction of src/app.py
  style foul text (src/balldontlie_live.py 465-471);
* `assisterOf` — the `assisted by` regex of src/app.py 1052-1054;
* `llm` — `generate_llm_commentary` (src/llm_commentary.py), keyed by the
  commentary kind, `none` when unavailable/failed;
* `enhance` — `enhance_message_with_llm` (src/app.py), `none` on failure. -/
structure TextFns where
  extractPlayer : String → String
  blockerOf : String → String → String
  stealerOf : String → String → String
  fouledOf : String → String
  assisterOf : String → Option String
  llm : String → Option String
  enhance : Message → Option String

/-- Scoring-play messages (src/balldontlie_live.py 348-368): the
play-by-play score call plus a hype message for dunks and alley oops. -/
def scoringPlayMsgs (tf : TextFns) (play : Play) : List Message :=
  { bot := "play_by_play"
    text := "💥 " ++ tf.extractPlayer play.text ++ " (" ++ play.teamAbbr ++ ") hits the "
      ++ lowerStr ((((lowerStr play.type).replace " shot" "").replace " putback" "").trim)
      ++ "! " ++ toString (play.score_value.getD 0) ++ " points."
    type := "score", team := play.teamAbbr } ::
  (if strContains (lowerStr play.type) "dunk" || strContains (lowerStr play.type) "alley oop" then
    [{ bot := "hype_man"
       text := "🔥🔥🔥 POSTER! " ++ tf.extractPlayer play.text ++ " throws it DOWN!"
       type := "hype", team := play.teamAbbr }]
  else [])

/-- Made free-throw message (src/balldontlie_live.py 371-378). -/
def freeThrowMsgs (tf : TextFns) (play : Play) : List Message :=
  [{ bot := "play_by_play"
     text := "✓ " ++ tf.extractPlayer play.text ++ " (" ++ play.teamAbbr
       ++ ") makes the free throw."
     type := "freethrow", team := play.teamAbbr }]

/-- Block message (src/balldontlie_live.py 381-394); the blocker name is
refined from the text when it mentions "blocks". -/
def blockMsgs (tf : TextFns) (play : Play) : List Message :=
  [{ bot := "play_by_play"
     text := "🚫 " ++ (if strContains (lowerStr play.text) "blocks" then
         tf.blockerOf (tf.extractPlayer play.text) play.text
       else tf.extractPlayer play.text) ++ " with the REJECTION!"
     type := "block", team := play.teamAbbr }]

/-- Steal message (src/balldontlie_live.py 397-410). -/
def stealMsgs (tf : TextFns) (play : Play) : List Message :=
  [{ bot := "play_by_play"
     text := "👋 " ++ (if strContains (lowerStr play.text) "steal" then
         tf.stealerOf (tf.extractPlayer play.text) play.text
       else tf.extractPlayer play.text) ++ " (" ++ play.teamAbbr
       ++ ") picks the pocket! Steal!"
     type := "steal", team := play.teamAbbr }]

/-- Turnover message (src/balldontlie_live.py 413-420), suppressed when the
text mentions a steal. -/
def turnoverMsgs (tf : TextFns) (play : Play) : List Message :=
  if ¬ strContains (lowerStr play.text) "steal" then
    [{ bot := "play_by_play"
       text := "💨 Turnover by " ++ tf.extractPlayer play.text ++ " (" ++ play.teamAbbr ++ ")"
       type := "turnover", team := play.teamAbbr }]
  else []

/-- Missed-shot message (src/balldontlie_live.py 423-432). -/
def missedShotMsgs (tf : TextFns) (play : Play) : List Message :=
  if strContains (lowerStr play.text) "misses" then
    [{ bot := "play_by_play"
       text := "❌ " ++ tf.extractPlayer play.text ++ " (" ++ play.teamAbbr ++ ") misses the "
         ++ lowerStr ((lowerStr play.type).replace " Shot" "") ++ "."
       type := "miss", team := play.teamAbbr }]
  else []

/-- Rebound message (src/balldontlie_live.py 435-443). -/
def reboundMsgs (tf : TextFns) (play : Play) : List Message :=
  [{ bot := "play_by_play"
     text := (if strContains (lowerStr play.type) "offensive" then "🔄" else "📥") ++ " "
       ++ tf.extractPlayer play.text ++ " (" ++ play.teamAbbr ++ ") grabs the "
       ++ (if strContains (lowerStr play.type) "offensive" then "offensive" else "defensive")
       ++ " rebound."
     type := "rebound", team := play.teamAbbr }]

/-- The foul-type classification chain (src/balldontlie_live.py 448-462). -/
def foulTypeOf (play : Play) : String :=
  if strContains (lowerStr play.type) "personal" ∨ strContains (lowerStr play.text) "personal" then
    "personal foul"
  else if strContains (lowerStr play.type) "shooting" ∨ strContains (lowerStr play.text) "shooting" then
    "shooting foul"
  else if strContains (lowerStr play.type) "offensive" ∨ strContains (lowerStr play.text) "offensive" then
    "offensive foul"
  else if strContains (lowerStr play.type) "technical" ∨ strContains (lowerStr play.text) "technical" then
    "technical foul"
  else if strContains (lowerStr play.type) "flagrant" ∨ strContains (lowerStr play.text) "flagrant" then
    "flagrant foul"
  else if strContains (lowerStr play.type) "loose ball" ∨ strContains (lowerStr play.text) "loose ball" then
    "loose ball foul"
  else if strContains (lowerStr play.text) "away from play" then "away from play foul"
  else "foul"

/-- Referee foul message (src/balldontlie_live.py 446-482). -/
def foulMsgs (tf : TextFns) (play : Play) : List Message :=
  [{ bot := "referee"
     text :=
       (let base := "🚨 " ++ upperStr (foulTypeOf play) ++ " called on "
          ++ tf.extractPlayer play.text ++ " (" ++ play.teamAbbr ++ ")"
        let fouled_player := if strContains (lowerStr play.text) " on " then tf.fouledOf play.text else ""
        if fouled_player ≠ "" then base ++ " - fouled " ++ fouled_player else base)
     type := "foul", team := play.teamAbbr }]

/-- Referee challenge/replay messages (src/balldontlie_live.py 485-507). -/
def challengeMsgs (play : Play) : List Message :=
  if strContains (lowerStr play.text) "overturn" ∨ strContains (lowerStr play.text) "successful" then
    [{ bot := "referee"
       text := "⚖️ CHALLENGE SUCCESSFUL! " ++ (if play.teamAbbr ≠ "" then play.teamAbbr
         else "Team") ++ "'s challenge overturns the call."
       type := "challenge", team := play.teamAbbr }]
  else if strContains (lowerStr play.text) "stands" ∨
      strContains (lowerStr play.text) "unsuccessful" ∨
      strContains (lowerStr play.text) "upheld" then
    [{ bot := "referee"
       text := "⚖️ CHALLENGE FAILED. The call on the floor stands. "
         ++ (if play.teamAbbr ≠ "" then play.teamAbbr else "Team") ++ " loses a timeout."
       type := "challenge", team := play.teamAbbr }]
  else
    [{ bot := "referee"
       text := "⚖️ COACH'S CHALLENGE - " ++ (if play.teamAbbr ≠ "" then play.teamAbbr
         else "Team") ++ " is challenging the call. Play under review."
       type := "challenge", team := play.teamAbbr }]

/-- Timeout message (src/balldontlie_live.py 510-517). -/
def timeoutMsgs (play : Play) : List Message :=
  [{ bot := "play_by_play"
     text := "⏸️ " ++ play.teamAbbr ++ " calls a "
       ++ lowerStr (if strContains (lowerStr play.type) "full" then "Full" else "20-second")
       ++ " timeout."
     type := "timeout", team := play.teamAbbr }]

/-- Jump-ball message (src/balldontlie_live.py 520-525). -/
def jumpballMsgs (play : Play) : List Message :=
  [{ bot := "play_by_play", text := "⬆️ Jump ball! " ++ play.text, type := "jumpball" }]

/-- Period-boundary messages (src/balldontlie_live.py 528-593): end of
quarter yields the score line plus either an LLM quarter summary
(ai_commentator) or the stats_nerd fallback; start of quarter yields the
tip-off line. The largest-lead values are only read into the (opaque) LLM
context. -/
def periodMsgs (tf : TextFns) (play : Play) (gi : GameInfo) : List Message :=
  if strContains (lowerStr play.type) "end" then
    { bot := "play_by_play"
      text := "⏱️ End of Q" ++ toString play.period ++ ". Score: " ++ gi.away_team ++ " "
        ++ toString play.away_score ++ " - " ++ gi.home_team ++ " " ++ toString play.home_score
      type := "period" } ::
    (match tf.llm "quarter_summary" with
     | some llm_summary =>
       [{ bot := "ai_commentator", text := "🤖 " ++ llm_summary, type := "ai_summary" }]
     | none =>
       [{ bot := "stats_nerd"
          text := "📊 Quarter " ++ toString play.period ++ " complete. "
            ++ (if 0 < (play.home_score : Int) - (play.away_score : Int) then gi.home_team
              else gi.away_team)
            ++ " leads by "
            ++ toString (((play.home_score : Int) - (play.away_score : Int)).natAbs) ++ "."
          type := "summary" }])
  else if strContains (lowerStr play.type) "start" then
    [{ bot := "play_by_play", text := "🏀 Quarter " ++ toString play.period ++ " is underway!"
       type := "period" }]
  else []

/-- The main if/elif chain of `generate_messages_from_play`
(src/balldontlie_live.py 348-593): play-by-play, hype, referee and period
messages for one play, dispatching on the lower-cased category field and
the description text exactly as the source's elif ladder does. -/
def mainMsgs (tf : TextFns) (play : Play) (gi : GameInfo) : List Message :=
  -- `if is_scoring and score_value:` — Python truthiness: an absent or
  -- zero score_value is falsy
  if play.scoring_play ∧ play.score_value.getD 0 ≠ 0 then scoringPlayMsgs tf play
  else if strContains (lowerStr play.type) "free throw"
      ∧ strContains (lowerStr play.text) "makes" then freeThrowMsgs tf play
  else if strContains (lowerStr play.type) "block"
      ∨ (strContains (lowerStr play.text) "blocks" ∧ ¬ play.scoring_play) then
    blockMsgs tf play
  else if strContains (lowerStr play.type) "steal"
      ∨ strContains (lowerStr play.text) "steal" then stealMsgs tf play
  else if strContains (lowerStr play.type) "turnover"
      ∨ strContains (lowerStr play.text) "turnover" then turnoverMsgs tf play
  else if play.shooting_play ∧ ¬ play.scoring_play
      ∧ ¬ strContains (lowerStr play.text) "blocks" then missedShotMsgs tf play
  else if strContains (lowerStr play.type) "rebound" then reboundMsgs tf play
  else if strContains (lowerStr play.type) "foul" then foulMsgs tf play
  else if strContains (lowerStr play.type) "challenge"
      ∨ strContains (lowerStr play.type) "replay"
      ∨ strContains (lowerStr play.type) "review" then challengeMsgs play
  else if strContains (lowerStr play.type) "timeout" then timeoutMsgs play
  else if strContains (lowerStr play.type) "jumpball"
      ∨ strContains (lowerStr play.type) "jump ball" then jumpballMsgs play
  else if strContains (lowerStr play.type) "period" then periodMsgs tf play gi
  else []

/-- Lead-change / tie section of `generate_messages_from_play`
(src/balldontlie_live.py 595-623), reached only for scoring plays: a
lead-change fires exactly on a sign flip of `away - home`; a tie message
fires when the new difference is zero and the previous one was not. -/
def leadTieMsgs (game_info : GameInfo) (home_score away_score prev_home prev_away : Nat) :
    List Message :=
  let prev_diff : Int := (prev_away : Int) - (prev_home : Int)
  let curr_diff : Int := (away_score : Int) - (home_score : Int)
  if 0 < prev_diff ∧ curr_diff < 0 then
    [{ bot := "hype_man", text := "🔄 LEAD CHANGE! " ++ game_info.home_team ++ " takes the lead!"
       type := "lead_change", team := game_info.home_team, is_lead_change := true }]
  else if prev_diff < 0 ∧ 0 < curr_diff then
    [{ bot := "hype_man", text := "🔄 LEAD CHANGE! " ++ game_info.away_team ++ " takes the lead!"
       type := "lead_change", team := game_info.away_team, is_lead_change := true }]
  else if curr_diff = 0 ∧ prev_diff ≠ 0 then
    [{ bot := "hype_man"
       text := "⚖️ TIE GAME! " ++ toString away_score ++ "-" ++ toString home_score
       type := "tie" }]
  else []

/-- Largest-lead section of `generate_messages_from_play`
(src/balldontlie_live.py 625-651), reached only for scoring plays: each
side's stored largest lead is raised to the current lead whenever exceeded,
with a message only from 5 points up; the home block runs before the away
block. -/
def largestLeadMsgs (game_info : GameInfo) (home_score away_score : Nat)
    (largest_leads : LargestLeads) : List Message × LargestLeads :=
  let home_lead : Int := (home_score : Int) - (away_score : Int)
  let away_lead : Int := (away_score : Int) - (home_score : Int)
  let (m1, ll1) :=
    if 0 < home_lead ∧ (largest_leads.home : Int) < home_lead then
      ((if 5 ≤ home_lead then
          [({ bot := "stats_nerd"
              text := "📈 " ++ game_info.home_team
                ++ " extends to their LARGEST LEAD of the game: +" ++ toString home_lead.natAbs ++ "!"
              type := "largest_lead", team := game_info.home_team
              is_largest_lead := true, lead_amount := home_lead.natAbs } : Message)]
        else []),
       { largest_leads with home := home_lead.natAbs })
    else ([], largest_leads)
  let (m2, ll2) :=
    if 0 < away_lead ∧ (ll1.away : Int) < away_lead then
      ((if 5 ≤ away_lead then
          [({ bot := "stats_nerd"
              text := "📈 " ++ game_info.away_team
                ++ " extends to their LARGEST LEAD of the game: +" ++ toString away_lead.natAbs ++ "!"
              type := "largest_lead", team := game_info.away_team
              is_largest_lead := true, lead_amount := away_lead.natAbs } : Message)]
        else []),
       { ll1 with away := away_lead.natAbs })
    else ([], ll1)
  (m1 ++ m2, ll2)

/-- Final-recap section of `generate_messages_from_play`
(src/balldontlie_live.py 653-699): when the game is final and the LLM
collaborator yields a summary, one ai_commentator recap message. -/
def finalRecapMsgs (tf : TextFns) (game_info : GameInfo)
    (home_score away_score : Nat) (is_game_final : Bool) : List Message :=
  if is_game_final then
    match tf.llm "game_summary" with
    | some llm_summary =>
      [{ bot := "ai_commentator", text := "🤖 FINAL RECAP: " ++ llm_summary
         type := "ai_summary"
         score := game_info.away_team ++ " " ++ toString away_score ++ " - "
           ++ game_info.home_team ++ " " ++ toString home_score }]
    | none => []
  else []

/-- The trailing metadata loop of `generate_messages_from_play`
(src/balldontlie_live.py 701-705): every message gets the play's score
string, period and clock. -/
def setMeta (game_info : GameInfo) (play : Play) (m : Message) : Message :=
  { m with
    score := game_info.away_team ++ " " ++ toString play.away_score ++ " - "
      ++ game_info.home_team ++ " " ++ toString play.home_score
    period := play.period
    clock := play.clock }

/-- Python `(prev_play.get('home_score', 0) or 0) if prev_play else 0`. -/
def prevHomeScore (prev_play : Option Play) : Nat :=
  (prev_play.map (·.home_score)).getD 0

/-- Python `(prev_play.get('away_score', 0) or 0) if prev_play else 0`. -/
def prevAwayScore (prev_play : Option Play) : Nat :=
  (prev_play.map (·.away_score)).getD 0

/-- Embedding of `generate_messages_from_play` (src/balldontlie_live.py
307-707): returns the message list of this play and the updated largest
leads (which the Python code mutates in place). Missing `prev_play` means
previous scores 0-0; the lead/tie and largest-lead sections run only for
scoring plays. -/
def generate_messages_from_play (tf : TextFns) (play : Play)
    (game_info : GameInfo) (prev_play : Option Play)
    (largest_leads : LargestLeads) (_lead_changes : Nat)
    (is_game_final : Bool) : List Message × LargestLeads :=
  ((mainMsgs tf play game_info
      ++ (if play.scoring_play then
            leadTieMsgs game_info play.home_score play.away_score
              (prevHomeScore prev_play) (prevAwayScore prev_play)
              ++ (largestLeadMsgs game_info play.home_score play.away_score largest_leads).1
          else [])
      ++ finalRecapMsgs tf game_info play.home_score play.away_score is_game_final).map
    (setMeta game_info play),
   if play.scoring_play then
     (largestLeadMsgs game_info play.home_score play.away_score largest_leads).2
   else largest_leads)

/-! ## Stat tracker: `track_player_stats_from_play` (src/app.py 1009-1067) -/

/-- Update the entry of `player` in the stats map (the Python code mutates
the dict entry in place). -/
def updateStatsAt (stats : List (String × PlayerStats)) (player : String)
    (f : PlayerStats → PlayerStats) : List (String × PlayerStats) :=
  stats.map (fun e => if e.1 = player then (e.1, f e.2) else e)

/-- Python `if player not in _dev_live_player_stats[game_id]` insertion:
dict insertion keeps order, so a fresh player is appended. -/
def insertIfAbsent (stats : List (String × PlayerStats)) (player team : String) :
    List (String × PlayerStats) :=
  if (lookupStats stats player).isSome then stats
  else stats ++ [(player, { team := team })]

/-- Embedding of `track_player_stats_from_play` (src/app.py 1009-1067) for
one game: returns the updated per-player stats map and the acting player
(`none` when no player name could be extracted, in which case nothing is
updated). The sequential map updates mirror the source's in-place dict
mutations in source order (team, points, rebounds, assist credit to the
assister, blocks, steals). -/
def track_player_stats_from_play (tf : TextFns)
    (stats : List (String × PlayerStats)) (play : Play) :
    List (String × PlayerStats) × Option String :=
  let text := play.text
  let play_type := lowerStr play.type
  let team := play.teamAbbr
  let score_value := play.score_value.getD 0
  let player := tf.extractPlayer text
  if player = "" then (stats, none)
  else
    let m0 := insertIfAbsent stats player team
    let m1 := updateStatsAt m0 player
      (fun s => { s with team := if team ≠ "" then team else s.team })
    let m2 := if play.scoring_play then
        updateStatsAt m1 player (fun s => { s with pts := s.pts + score_value })
      else m1
    let m3 := if strContains play_type "rebound" then
        updateStatsAt m2 player (fun s => { s with reb := s.reb + 1 })
      else m2
    let m4 := if strContains (lowerStr text) "assist" ∨ strContains play_type "ast" then
        match tf.assisterOf text with
        | some assister =>
          updateStatsAt (insertIfAbsent m3 assister team) assister
            (fun s => { s with ast := s.ast + 1 })
        | none => m3
      else m3
    let m5 := if strContains play_type "block" then
        updateStatsAt m4 player (fun s => { s with blk := s.blk + 1 })
      else m4
    let m6 := if strContains play_type "steal" then
        updateStatsAt m5 player (fun s => { s with stl := s.stl + 1 })
      else m5
    (m6, some player)

/-! ## History store (src/app.py 3912-3969) -/

/-- One entry of the deduplicated score timeline (src/app.py 3955-3962). -/
structure ScoreEntry where
  home : Nat
  away : Nat
  action : Nat
  period : Nat
  clock : String
  elapsed : Int
  deriving Repr, DecidableEq

/-- The per-game `_dev_live_history[game_id]` record (src/app.py
3914-3925). The constant `game_info` metadata is omitted; the
`final_score` dict is flattened into two fields. -/
structure History where
  messages : List Message := []
  scores : List ScoreEntry := []
  status : String := ""
  last_action : Nat := 0
  lead_changes : Nat := 0
  final_home : Nat := 0
  final_away : Nat := 0
  total_actions : Nat := 0
  saved_action_numbers : List String := []
  deriving Repr, DecidableEq

/-- The message dedup key `f"{action_num}_{msg.get('bot','')}_{msg.get('type','')}"`
(src/app.py 3935 and 3942). -/
def msgKey (m : Message) : String :=
  toString m.action_number ++ "_" ++ m.bot ++ "_" ++ m.type

/-- One iteration of the append loop (src/app.py 3940-3945): skip the
message if its key is already saved, else record the key and append. -/
def appendStep (h : History) (m : Message) : History :=
  if msgKey m ∈ h.saved_action_numbers then h
  else { h with
    saved_action_numbers := msgKey m :: h.saved_action_numbers
    messages := h.messages ++ [m] }

/-- The whole append loop over a batch of candidate messages. -/
def appendMessages (h : History) (msgs : List Message) : History :=
  msgs.foldl appendStep h

/-- How many messages a batch append newly added (the spec's
`appendedCount`). -/
def appendedCount (h : History) (msgs : List Message) : Nat :=
  (appendMessages h msgs).messages.length - h.messages.length

/-- The key-set rebuild for a history reloaded from disk (src/app.py
3929-3936): `saved_action_numbers` is reconstructed as the key of every
stored message. -/
def rebuildKeys (h : History) : History :=
  { h with saved_action_numbers := h.messages.map msgKey }

/-- The History invariants maintained by the store: stored messages have
pairwise distinct dedup keys, and every stored message's key is in the
saved key set. -/
def GoodHistory (h : History) : Prop :=
  (h.messages.map msgKey).Nodup ∧ ∀ m ∈ h.messages, msgKey m ∈ h.saved_action_numbers

/-- The score-timeline recording step (src/app.py 3950-3962): a (0,0)
score is never recorded; otherwise an entry is appended exactly when its
(home, away) pair differs from the last recorded entry. `elapsedOf`
abstracts `clock_to_elapsed_seconds` (pure display arithmetic). -/
def recordScore (elapsedOf : String → Nat → Int) (scores : List ScoreEntry)
    (home away action period : Nat) (clock : String) : List ScoreEntry :=
  if 0 < home ∨ 0 < away then
    match scores.getLast? with
    | none =>
      scores ++ [⟨home, away, action, period, clock, elapsedOf clock period⟩]
    | some last =>
      if last.home ≠ home ∨ last.away ≠ away then
        scores ++ [⟨home, away, action, period, clock, elapsedOf clock period⟩]
      else scores
  else scores

/-! ## Largest-lead reconstruction (src/app.py 3769-3778) -/

/-- One step of the full-history largest-lead recalculation (src/app.py
3770-3776), also used verbatim in the finalize regeneration loop
(src/app.py 3986-3993). -/
def updateLargestLeads (ll : LargestLeads) (p : Play) : LargestLeads :=
  if p.away_score < p.home_score then
    { ll with home := max ll.home (p.home_score - p.away_score) }
  else if p.home_score < p.away_score then
    { ll with away := max ll.away (p.away_score - p.home_score) }
  else ll

/-- The largest leads reconstructed from a full play list, starting from
`{'home': 0, 'away': 0}` (src/app.py 3727-3728). -/
def largestLeadsFromPlays (plays : List Play) : LargestLeads :=
  plays.foldl updateLargestLeads {}

/-- The lead-change test between two consecutive plays (src/app.py
3895-3899 and 3996-4002): sign flip of `away - home`, ties counting as no
lead. -/
def isLeadChange (prev curr : Play) : Bool :=
  let prev_diff : Int := (prev.away_score : Int) - (prev.home_score : Int)
  let curr_diff : Int := (curr.away_score : Int) - (curr.home_score : Int)
  (0 < prev_diff && curr_diff < 0) || (prev_diff < 0 && 0 < curr_diff)

/-! ## Finalize with replay reconstruction (src/app.py 3971-4043)

The finalize regeneration loop calls `bdl.generate_messages_from_play`
with the keyword arguments `lead_changes`, `is_game_final` and `skip_llm`
(src/app.py 4008-4013). The callee's parameter list
(src/balldontlie_live.py 307) is `play, game_info, prev_play,
largest_leads, lead_changes, is_game_final` — it has no `skip_llm`
parameter and no `**kwargs`, so in Python this call raises
`TypeError: ... got an unexpected keyword argument 'skip_llm'` on every
iteration. The embedding models Python's keyword-call check explicitly. -/

/-- The formal parameter names of `generate_messages_from_play`
(src/balldontlie_live.py 307). -/
def generate_messages_params : List String :=
  ["play", "game_info", "prev_play", "largest_leads", "lead_changes", "is_game_final"]

/-- Python call semantics: a call whose keyword-argument names are not all
among the callee's parameters raises TypeError instead of executing the
body. -/
def callGenerateMessages (kwargs : List String) (tf : TextFns) (play : Play)
    (game_info : GameInfo) (prev_play : Option Play) (ll : LargestLeads)
    (lead_changes : Nat) (is_game_final : Bool) :
    Except String (List Message × LargestLeads) :=
  if kwargs.all (fun k => generate_messages_params.contains k) then
    .ok (generate_messages_from_play tf play game_info prev_play ll lead_changes is_game_final)
  else
    .error "TypeError: generate_messages_from_play() got an unexpected keyword argument 'skip_llm'"

/-- The finalize regeneration loop (src/app.py 3980-4032): per play, update
the regenerated largest leads and lead-change count, then call
`bdl.generate_messages_from_play(..., lead_changes=..., is_game_final=...,
skip_llm=True)` and collect its messages tagged with the play's order. -/
def regenLoop (tf : TextFns) (game_info : GameInfo) :
    List Play → Option Play → LargestLeads → Nat → List Message →
    Except String (List Message × Nat)
  | [], _, _, lcc, acc => .ok (acc, lcc)
  | p :: rest, prev_p, ll, lcc, acc =>
    let ll' := updateLargestLeads ll p
    let lcc' := match prev_p with
      | some q => if isLeadChange q p then lcc + 1 else lcc
      | none => lcc
    match callGenerateMessages ["lead_changes", "is_game_final", "skip_llm"]
        tf p game_info prev_p ll' lcc' rest.isEmpty with
    | .error e => .error e
    | .ok (msgs, llOut) =>
      regenLoop tf game_info rest (some p) llOut lcc'
        (acc ++ msgs.map (fun m => { m with action_number := p.order }))

/-- The status-transition part of the live-feed handler (src/app.py
3971-4043): when the game just reached Final and the stored message list is
empty while plays are available, all messages are regenerated from the full
play list before the terminal write. -/
def finalizeHistory (tf : TextFns) (game_info : GameInfo) (h : History)
    (plays : List Play) (game_status : String) : Except String History :=
  if game_status = "Final" ∧ h.status ≠ "Final" then
    if h.messages = [] ∧ plays ≠ [] then
      match regenLoop tf game_info plays none {} 0 [] with
      | .error e => .error e
      | .ok (msgs, lcc) =>
        .ok { h with status := "Final", messages := msgs, lead_changes := lcc }
    else .ok { h with status := "Final" }
  else .ok { h with status := game_status }

/-! ## Incremental live-feed processing of one new play
(src/app.py 3796-3878) -/

/-- The in-memory per-game state of the live feed: the
`_dev_live_lead_changes`, `_dev_live_largest_leads`,
`_dev_live_player_stats` and `_dev_live_announced_milestones` entries for
one game. -/
structure LiveGameState where
  leadChangeCount : Nat := 0
  largestLeads : LargestLeads := {}
  playerStats : List (String × PlayerStats) := []
  announced : List String := []
  deriving Repr, DecidableEq

/-- Which messages the LLM-enhancement loop considers (src/app.py
3822-3825). -/
def qualifiesForEnhancement (m : Message) : Bool :=
  m.is_lead_change || m.is_largest_lead || m.type == "tie" ||
  (m.type == "hype" && strContains m.text "POSTER") ||
  (m.type == "summary" && strContains m.text "Quarter")

/-- Embedding of one iteration of the new-play loop of the live-feed
handler (src/app.py 3796-3878): generate the play's messages, tag them
with the play's order, count lead changes, and — only when the active
viewer count is positive — run the LLM enhancement pass and the Historian
milestone block (stat tracking, stat milestones, big-lead milestone). -/
def processNewPlay (tf : TextFns) (game_info : GameInfo) (viewer_count : Nat)
    (st : LiveGameState) (play : Play) (compare_play : Option Play) :
    LiveGameState × List Message :=
  let (msgs0, ll') := generate_messages_from_play tf play game_info compare_play
    st.largestLeads st.leadChangeCount false
  let msgs1 := msgs0.map (fun m => { m with action_number := play.order })
  let lcc := st.leadChangeCount + msgs1.countP (fun m => m.is_lead_change)
  let score_str := game_info.away_team ++ " " ++ toString play.away_score ++ " - "
    ++ game_info.home_team ++ " " ++ toString play.home_score
  let msgs2 := if 0 < viewer_count then
      msgs1 ++ (msgs1.filter qualifiesForEnhancement).filterMap (fun m =>
        (tf.enhance m).map (fun t =>
          ({ bot := "ai_commentator", text := t, type := "ai_commentary"
             score := m.score, clock := m.clock, period := m.period
             action_number := m.action_number } : Message)))
    else msgs1
  if 0 < viewer_count then
    let (stats', tracked) := track_player_stats_from_play tf st.playerStats play
    let (ann1, mMsgs) := match tracked with
      | some pl => check_stat_milestones tf.llm stats' st.announced pl
      | none => (st.announced, [])
    let mMsgs' := mMsgs.map (fun m =>
      { m with action_number := play.order, score := score_str
               clock := play.clock, period := play.period })
    let (ann2, blOpt) :=
      if 20 ≤ ((play.home_score : Int) - (play.away_score : Int)).natAbs then
        check_big_lead_milestone tf.llm ann1 play.home_score play.away_score
          game_info.home_team game_info.away_team play.period
      else (ann1, none)
    let blMsgs := (blOpt.map (fun m =>
      { m with action_number := play.order, score := score_str
               clock := play.clock, period := play.period })).toList
    ({ leadChangeCount := lcc, largestLeads := ll', playerStats := stats'
       announced := ann2 },
     msgs2 ++ mMsgs' ++ blMsgs)
  else
    ({ st with leadChangeCount := lcc, largestLeads := ll' }, msgs2)

/-! ## Shared concrete instances for witnesses and counterexamples -/

/-- The LLM collaborator when unavailable (every call falls back to the
literal text, the behavior the pipeline guarantees). -/
def llmUnavailable : String → Option String := fun _ => none

/-- Trivial text helpers: no player name is ever extracted, no rewrite
happens. -/
def trivialTextFns : TextFns :=
  { extractPlayer := fun _ => ""
    blockerOf := fun p _ => p
    stealerOf := fun p _ => p
    fouledOf := fun _ => ""
    assisterOf := fun _ => none
    llm := fun _ => none
    enhance := fun _ => none }

/-! ## C9: block classification in the play normalizer -/

/-- A play whose provider category field says both "block" and "shot", with
the block also named in the description (the shape the source comment at
src/balldontlie_live.py 380 describes). -/
def blockedShotPlay : Play :=
  { order := 57, period := 2, clock := "7:31", home_score := 20, away_score := 18
    teamAbbr := "ORL", type := "Blocked Shot"
    text := "Goga Bitadze blocks Zion Williamson's shot"
    scoring_play := false, score_value := none, shooting_play := true }

/-- C9 counterexample: a play whose category field contains "block" (and
whose description contains "block") but also contains "shot" is classified
as "3pt" by `convert_play_to_action`, not as "block" — the shot rule fires
first, contradicting the claim that "block" wins even when the category
also says "shot". -/
theorem c9_counterexample :
    strContains (lowerStr blockedShotPlay.type) "block" = true ∧
    strContains (lowerStr blockedShotPlay.type) "shot" = true ∧
    strContains (lowerStr blockedShotPlay.text) "blocks" = true ∧
    (convert_play_to_action blockedShotPlay).actionType = "3pt" := by
  decide

/-- C9 (amended): `convert_play_to_action` classifies a play as "block"
exactly when "block" occurs in the lower-cased category field and none of
the earlier rules (shot/dunk/layup, free throw, rebound, turnover, steal)
match; the free-text description is never consulted by the normalizer's
classification. -/
theorem c9_amended (play : Play) :
    (((convert_play_to_action play).actionType == "block")
      = (strContains (lowerStr play.type) "block"
         && !(strContains (lowerStr play.type) "shot"
              || strContains (lowerStr play.type) "dunk"
              || strContains (lowerStr play.type) "layup")
         && !strContains (lowerStr play.type) "free throw"
         && !strContains (lowerStr play.type) "rebound"
         && !strContains (lowerStr play.type) "turnover"
         && !strContains (lowerStr play.type) "steal"))
    ∧ ∀ t, (convert_play_to_action { play with text := t }).actionType
        = (convert_play_to_action play).actionType := by
  constructor
  · simp only [convert_play_to_action]
    repeat' split <;> simp_all
    all_goals (intros; simp_all)
  · intro t
    rfl

/-! ## C5: the two largest-lead values -/

/-- A scoring play putting the home side up 5-0. -/
def homeRunPlay : Play :=
  { order := 1, period := 1, clock := "10:00", home_score := 5, away_score := 0
    teamAbbr := "BOS", type := "Jump Shot", text := "", scoring_play := true
    score_value := some 2, shooting_play := true }

/-- A later scoring play putting the away side up 7-5. -/
def awayRunPlay : Play :=
  { order := 2, period := 1, clock := "8:00", home_score := 5, away_score := 7
    teamAbbr := "NYK", type := "Three Point Shot", text := "", scoring_play := true
    score_value := some 3, shooting_play := true }

/-- C5 counterexample: after a home 5-0 lead followed by an away 7-5 lead,
the tracked largest leads are home = 5 and away = 2 — both strictly
positive at the same time, contradicting the claimed invariant. -/
theorem c5_counterexample :
    0 < (largestLeadsFromPlays [homeRunPlay, awayRunPlay]).home ∧
    0 < (largestLeadsFromPlays [homeRunPlay, awayRunPlay]).away := by
  decide

/-- The home component of the largest-lead fold is positive iff it started
positive or some processed play had the home side strictly ahead. -/
theorem foldl_largestLeads_home_pos (plays : List Play) (ll : LargestLeads) :
    0 < (plays.foldl updateLargestLeads ll).home ↔
      0 < ll.home ∨ ∃ p ∈ plays, p.away_score < p.home_score := by
  induction plays generalizing ll with
  | nil => simp
  | cons p ps ih =>
    rw [List.foldl_cons, ih]
    by_cases h1 : p.away_score < p.home_score
    · simp only [updateLargestLeads, if_pos h1, List.mem_cons]
      constructor
      · intro _
        exact Or.inr ⟨p, Or.inl rfl, h1⟩
      · intro _
        exact Or.inl (lt_of_lt_of_le (Nat.sub_pos_of_lt h1) (le_max_right _ _))
    · by_cases h2 : p.home_score < p.away_score
      · simp only [updateLargestLeads, if_neg h1, if_pos h2, List.mem_cons]
        constructor
        · rintro (hh | ⟨q, hq, hlt⟩)
          · exact Or.inl hh
          · exact Or.inr ⟨q, Or.inr hq, hlt⟩
        · rintro (hh | ⟨q, hq | hq, hlt⟩)
          · exact Or.inl hh
          · exact absurd (hq ▸ hlt) h1
          · exact Or.inr ⟨q, hq, hlt⟩
      · simp only [updateLargestLeads, if_neg h1, if_neg h2, List.mem_cons]
        constructor
        · rintro (hh | ⟨q, hq, hlt⟩)
          · exact Or.inl hh
          · exact Or.inr ⟨q, Or.inr hq, hlt⟩
        · rintro (hh | ⟨q, hq | hq, hlt⟩)
          · exact Or.inl hh
          · exact absurd (hq ▸ hlt) h1
          · exact Or.inr ⟨q, hq, hlt⟩

/-- The away component of the largest-lead fold is positive iff it started
positive or some processed play had the away side strictly ahead. -/
theorem foldl_largestLeads_away_pos (plays : List Play) (ll : LargestLeads) :
    0 < (plays.foldl updateLargestLeads ll).away ↔
      0 < ll.away ∨ ∃ p ∈ plays, p.home_score < p.away_score := by
  induction plays generalizing ll with
  | nil => simp
  | cons p ps ih =>
    rw [List.foldl_cons, ih]
    by_cases h1 : p.away_score < p.home_score
    · simp only [updateLargestLeads, if_pos h1, List.mem_cons]
      constructor
      · rintro (hh | ⟨q, hq, hlt⟩)
        · exact Or.inl hh
        · exact Or.inr ⟨q, Or.inr hq, hlt⟩
      · rintro (hh | ⟨q, hq | hq, hlt⟩)
        · exact Or.inl hh
        · exact absurd (hq ▸ h1) (Nat.lt_asymm hlt)
        · exact Or.inr ⟨q, hq, hlt⟩
    · by_cases h2 : p.home_score < p.away_score
      · simp only [updateLargestLeads, if_neg h1, if_pos h2, List.mem_cons]
        constructor
        · intro _
          exact Or.inr ⟨p, Or.inl rfl, h2⟩
        · intro _
          exact Or.inl (lt_of_lt_of_le (Nat.sub_pos_of_lt h2) (le_max_right _ _))
      · simp only [updateLargestLeads, if_neg h1, if_neg h2, List.mem_cons]
        constructor
        · rintro (hh | ⟨q, hq, hlt⟩)
          · exact Or.inl hh
          · exact Or.inr ⟨q, Or.inr hq, hlt⟩
        · rintro (hh | ⟨q, hq | hq, hlt⟩)
          · exact Or.inl hh
          · exact absurd (hq ▸ hlt) h2
          · exact Or.inr ⟨q, hq, hlt⟩

/-- C5 (amended): each tracked largest-lead value is positive exactly when
that side has been strictly ahead after some processed play; consequently
both values are positive together exactly when each side has led at some
point (e.g. after any lead change), and the claimed mutual-exclusion
invariant does not hold. -/
theorem c5_amended (plays : List Play) :
    (0 < (largestLeadsFromPlays plays).home ↔
      ∃ p ∈ plays, p.away_score < p.home_score)
    ∧ (0 < (largestLeadsFromPlays plays).away ↔
      ∃ p ∈ plays, p.home_score < p.away_score) := by
  constructor
  · rw [largestLeadsFromPlays, foldl_largestLeads_home_pos]
    simp
  · rw [largestLeadsFromPlays, foldl_largestLeads_away_pos]
    simp

/-! ## C8: score-timeline dedup -/

/-- A timeline entry at 50-48. -/
def entry5048 : ScoreEntry := ⟨50, 48, 31, 2, "5:12", 990⟩

/-- C8 counterexample: recording a (0, 0) score whose (home, away) pair
differs from the last recorded entry (50, 48) appends nothing — the
zero-score guard fires before the dedup comparison, contradicting the
claim that every differing pair appends exactly one entry. -/
theorem c8_counterexample :
    (entry5048.home ≠ 0 ∨ entry5048.away ≠ 0) ∧
    recordScore (fun _ _ => 0) [entry5048] 0 0 32 2 "5:10" = [entry5048] := by
  constructor
  · exact Or.inl (by decide)
  · rfl

/-- C8 (amended): recording a score equal to the last entry's (home, away)
pair appends nothing; recording a differing pair appends exactly one new
entry provided the new score is not (0, 0); a (0, 0) score is never
recorded, whatever the last entry is. -/
theorem c8_amended (elapsedOf : String → Nat → Int) (scores : List ScoreEntry)
    (home away action period : Nat) (clock : String) :
    (∀ last, scores.getLast? = some last → last.home = home → last.away = away →
      recordScore elapsedOf scores home away action period clock = scores)
    ∧ ((0 < home ∨ 0 < away) →
      (scores.getLast? = none ∨
        ∃ last, scores.getLast? = some last ∧ (last.home ≠ home ∨ last.away ≠ away)) →
      recordScore elapsedOf scores home away action period clock
        = scores ++ [⟨home, away, action, period, clock, elapsedOf clock period⟩])
    ∧ recordScore elapsedOf scores 0 0 action period clock = scores := by
  refine ⟨?_, ?_, ?_⟩
  · intro last hlast hh ha
    unfold recordScore
    split
    · rw [hlast]
      simp [hh, ha]
    · rfl
  · intro hpos hd
    unfold recordScore
    rw [if_pos hpos]
    rcases hd with hnone | ⟨last, hlast, hne⟩
    · rw [hnone]
    · rw [hlast]
      simp only [if_pos hne]
  · unfold recordScore
    simp

/-- C8 witness: with last entry 50-48, recording 50-48 again appends
nothing, while recording 52-48 appends exactly the new entry. -/
theorem c8_witness :
    recordScore (fun _ _ => 0) [entry5048] 50 48 32 2 "5:10" = [entry5048]
    ∧ recordScore (fun _ _ => 0) [entry5048] 52 48 33 2 "5:02"
      = [entry5048, ⟨52, 48, 33, 2, "5:02", 0⟩] := by
  constructor
  · exact (c8_amended (fun _ _ => 0) [entry5048] 50 48 32 2 "5:10").1 entry5048 rfl rfl rfl
  · exact (c8_amended (fun _ _ => 0) [entry5048] 52 48 33 2 "5:02").2.1 (by decide)
      (Or.inr ⟨entry5048, rfl, Or.inl (by decide)⟩)

/-! ## C6: message dedup in the History store -/

/-- One append step preserves the History invariants. -/
theorem appendStep_good {h : History} (hg : GoodHistory h) (m : Message) :
    GoodHistory (appendStep h m) := by
  unfold appendStep
  split
  · exact hg
  · rename_i hnot
    obtain ⟨hnd, hmem⟩ := hg
    constructor
    · simp only [List.map_append, List.map_cons, List.map_nil]
      rw [List.nodup_append]
      refine ⟨hnd, List.nodup_singleton _, ?_⟩
      intro k hk
      simp only [List.mem_singleton]
      intro hkm
      obtain ⟨m', hm', hkey⟩ := List.mem_map.mp hk
      exact hnot (hkm ▸ hkey ▸ hmem m' hm')
    · intro m' hm'
      rcases List.mem_append.mp hm' with hold | hnew
      · exact List.mem_cons_of_mem _ (hmem m' hold)
      · rw [List.mem_singleton.mp hnew]
        exact List.mem_cons_self _ _

/-- The whole append loop preserves the History invariants. -/
theorem appendMessages_good {h : History} (hg : GoodHistory h)
    (msgs : List Message) : GoodHistory (appendMessages h msgs) := by
  induction msgs generalizing h with
  | nil => exact hg
  | cons m ms ih => exact ih (appendStep_good hg m)

/-- After appending `m`, the key of `m` is saved. -/
theorem appendStep_key_saved (h : History) (m : Message) :
    msgKey m ∈ (appendStep h m).saved_action_numbers := by
  unfold appendStep
  split
  · assumption
  · exact List.mem_cons_self _ _

/-- Appending a message whose key is already saved changes nothing. -/
theorem appendStep_of_mem {h : History} {m : Message}
    (hmem : msgKey m ∈ h.saved_action_numbers) : appendStep h m = h := by
  unfold appendStep
  rw [if_pos hmem]

/-- C6: within one game's History, (sequence order, persona, kind) — the
rendered dedup key — stays unique: every append preserves the invariant
that stored messages have pairwise distinct keys all present in the key
set; appending a message whose key is new stores exactly one copy and
counts 1; appending a message whose key is present changes nothing and
counts 0, so the second of two identical appends adds zero messages; and a
key set rebuilt from reloaded messages with distinct keys satisfies the
same invariant. -/
theorem history_dedup_theorem (h : History) (msgs : List Message) (m : Message) :
    (GoodHistory h → GoodHistory (appendMessages h msgs))
    ∧ (GoodHistory h → msgKey m ∉ h.saved_action_numbers →
        (appendMessages h [m]).messages.count m = 1 ∧ appendedCount h [m] = 1)
    ∧ (msgKey m ∈ h.saved_action_numbers →
        appendMessages h [m] = h ∧ appendedCount h [m] = 0)
    ∧ appendMessages (appendMessages h [m]) [m] = appendMessages h [m]
    ∧ ((h.messages.map msgKey).Nodup → GoodHistory (rebuildKeys h)) := by
  have hsingle : appendMessages h [m] = appendStep h m := rfl
  refine ⟨fun hg => appendMessages_good hg msgs, ?_, ?_, ?_, ?_⟩
  · intro hg hnot
    have hnotmem : m ∉ h.messages := fun hmem => hnot (hg.2 m hmem)
    have hstep : appendStep h m =
        { h with saved_action_numbers := msgKey m :: h.saved_action_numbers
                 messages := h.messages ++ [m] } := by
      unfold appendStep
      rw [if_neg hnot]
    rw [hsingle, hstep]
    constructor
    · simp [List.count_append, List.count_eq_zero.mpr hnotmem]
    · unfold appendedCount
      rw [hsingle, hstep]
      simp
  · intro hmem
    have hstep : appendStep h m = h := by
      unfold appendStep
      rw [if_pos hmem]
    refine ⟨hsingle.trans hstep, ?_⟩
    unfold appendedCount
    rw [hsingle, hstep]
    simp
  · have h2 : appendMessages (appendMessages h [m]) [m]
        = appendStep (appendStep h m) m := rfl
    rw [h2, hsingle, appendStep_of_mem (appendStep_key_saved h m)]
  · intro hnd
    exact ⟨hnd, fun m' hm' => List.mem_map_of_mem _ hm'⟩

/-- A sample message for the dedup witness. -/
def sampleMsg : Message :=
  { bot := "play_by_play", text := "💥 X (BOS) hits the jump shot! 2 points."
    type := "score", team := "BOS", action_number := 7 }

/-- C6 witness: starting from the empty History, appending `sampleMsg`
stores exactly one copy (count 1), and appending it a second time changes
nothing. -/
theorem history_dedup_witness :
    (appendMessages ({} : History) [sampleMsg]).messages.count sampleMsg = 1
    ∧ appendedCount ({} : History) [sampleMsg] = 1
    ∧ appendMessages (appendMessages ({} : History) [sampleMsg]) [sampleMsg]
        = appendMessages ({} : History) [sampleMsg] := by
  have hgood : GoodHistory ({} : History) := ⟨by simp, by simp⟩
  have hnot : msgKey sampleMsg ∉ ({} : History).saved_action_numbers := by simp
  obtain ⟨hcount, happ⟩ :=
    (history_dedup_theorem ({} : History) [sampleMsg] sampleMsg).2.1 hgood hnot
  exact ⟨hcount, happ, (history_dedup_theorem ({} : History) [sampleMsg] sampleMsg).2.2.2.1⟩

/-! ## C1: finalize with replay reconstruction raises TypeError -/

/-- C1 (code bug): finalizing a game whose stored message list is empty
while the full play history is available never produces any messages: the
regeneration loop's very first call passes the keyword argument `skip_llm`,
which `generate_messages_from_play` does not accept, so the whole
finalization fails with a TypeError for every non-empty play list —
instead of producing the claimed non-empty from-scratch message list. -/
theorem finalize_empty_history_type_error (tf : TextFns) (game_info : GameInfo)
    (h : History) (plays : List Play) (hst : h.status ≠ "Final")
    (hm : h.messages = []) (hp : plays ≠ []) :
    finalizeHistory tf game_info h plays "Final"
      = .error "TypeError: generate_messages_from_play() got an unexpected keyword argument 'skip_llm'" := by
  rcases plays with _ | ⟨p, rest⟩
  · exact absurd rfl hp
  · unfold finalizeHistory
    rw [if_pos ⟨rfl, hst⟩, if_pos ⟨hm, hp⟩]
    rfl

/-- C1 witness: a concrete already-final game with one play and an empty
stored history fails with the TypeError instead of regenerating. -/
theorem finalize_empty_history_type_error_witness :
    finalizeHistory trivialTextFns ⟨"BOS", "NYK"⟩ ({} : History) [homeRunPlay] "Final"
      = .error "TypeError: generate_messages_from_play() got an unexpected keyword argument 'skip_llm'" :=
  finalize_empty_history_type_error trivialTextFns ⟨"BOS", "NYK"⟩ ({} : History)
    [homeRunPlay] (by decide) rfl (by simp)

/-! ## C2 / C3: lemmas about the milestone loops -/

/-- The tier loop announces-and-emits exactly the first (lowest) tier in
the list that is reached and whose key is not yet announced. -/
theorem tierLoop_eq_find (mkKey : Nat → String) (mkMsg : Nat → Message)
    (stat : Nat) (a : List String) (ts : List Nat) :
    tierLoop mkKey mkMsg stat a ts =
      match ts.find? (fun t => decide (t ≤ stat ∧ mkKey t ∉ a)) with
      | some t => (mkKey t :: a, [mkMsg t])
      | none => (a, []) := by
  induction ts with
  | nil => rfl
  | cons t ts ih =>
    rw [List.find?_cons]
    by_cases h1 : t ≤ stat
    · by_cases h2 : mkKey t ∈ a
      · have : decide (t ≤ stat ∧ mkKey t ∉ a) = false := by simp [h2]
        rw [this]
        unfold tierLoop
        rw [if_pos h1, if_pos h2, ih]
      · have : decide (t ≤ stat ∧ mkKey t ∉ a) = true := by simp [h1, h2]
        rw [this]
        unfold tierLoop
        rw [if_pos h1, if_neg h2]
    · have : decide (t ≤ stat ∧ mkKey t ∉ a) = false := by simp [h1]
      rw [this]
      unfold tierLoop
      rw [if_neg h1, ih]

/-- When the stat is below every tier, the loop does nothing. -/
theorem tierLoop_below (mkKey : Nat → String) (mkMsg : Nat → Message)
    (stat : Nat) (a : List String) (ts : List Nat)
    (h : ∀ t ∈ ts, stat < t) :
    tierLoop mkKey mkMsg stat a ts = (a, []) := by
  induction ts with
  | nil => rfl
  | cons t ts ih =>
    unfold tierLoop
    rw [if_neg (Nat.not_le.mpr (h t (List.mem_cons_self t ts)))]
    exact ih fun u hu => h u (List.mem_cons_of_mem t hu)

/-- The tier loop only adds keys. -/
theorem tierLoop_subset (mkKey : Nat → String) (mkMsg : Nat → Message)
    (stat : Nat) (a : List String) (ts : List Nat) :
    a ⊆ (tierLoop mkKey mkMsg stat a ts).1 := by
  induction ts with
  | nil => exact fun x hx => hx
  | cons t ts ih =>
    unfold tierLoop
    split
    · split
      · exact ih
      · exact List.subset_cons_self _ _
    · exact ih

/-- The tier sections only add keys. -/
theorem tierSections_subset (llm : String → Option String) (player : String)
    (s : PlayerStats) (a : List String) :
    a ⊆ (tierSections llm player s a).1 :=
  ((tierLoop_subset _ _ _ _ _).trans (tierLoop_subset _ _ _ _ _)).trans
    (tierLoop_subset _ _ _ _ _)

/-- The triple-double section only adds keys. -/
theorem tripleSection_subset (llm : String → Option String) (player : String)
    (s : PlayerStats) (a : List String) :
    a ⊆ (tripleSection llm player s a).1 := by
  unfold tripleSection
  split
  · split
    · exact fun x hx => hx
    · exact List.subset_cons_self _ _
  · exact fun x hx => hx

/-- The double-double section only adds keys. -/
theorem doubleSection_subset (llm : String → Option String) (player : String)
    (s : PlayerStats) (a : List String) :
    a ⊆ (doubleSection llm player s a).1 := by
  unfold doubleSection
  split
  · split
    · exact fun x hx => hx
    · exact List.subset_cons_self _ _
  · exact fun x hx => hx

/-- A milestone check never removes announced keys. -/
theorem check_stat_milestones_subset (llm : String → Option String)
    (stats : List (String × PlayerStats)) (a : List String) (player : String) :
    a ⊆ (check_stat_milestones llm stats a player).1 := by
  unfold check_stat_milestones
  split
  · exact fun x hx => hx
  · exact ((tripleSection_subset _ _ _ _).trans
      (doubleSection_subset _ _ _ _)).trans (tierSections_subset _ _ _ _)

/-! ## C2: double/triple-double -/

/-- A player sitting at 10 points, 10 blocks and 10 steals: three of the
five categories are at ≥ 10, but only one of points/rebounds/assists. -/
def tripleImposter : PlayerStats := { pts := 10, blk := 10, stl := 10, team := "BOS" }

/-- C2 counterexample: for a player with 10 points, 10 blocks and 10 steals
(3 of the 5 categories at ≥ 10), the milestone check emits a double-double
message (plus the 5-block and 5-steal tier messages) and never a
triple-double — contradicting the claim that ≥ 3 of the five categories at
≥ 10 yields exactly one triple-double and suppresses the double-double. -/
theorem c2_counterexample :
    3 ≤ categories10dd tripleImposter
    ∧ (check_stat_milestones llmUnavailable [("A", tripleImposter)] [] "A").2
      = [generate_historian_milestone_message llmUnavailable "double_double" "A" "BOS" tripleImposter 0 0,
         generate_historian_milestone_message llmUnavailable "blocks_milestone" "A" "BOS" tripleImposter 5 0,
         generate_historian_milestone_message llmUnavailable "steals_milestone" "A" "BOS" tripleImposter 5 0]
    ∧ tripleKey "A" ∉ (check_stat_milestones llmUnavailable [("A", tripleImposter)] [] "A").1 := by
  refine ⟨by decide, rfl, by decide⟩

/-- C2 (amended): the triple-double condition counts only points, rebounds
and assists (all three ≥ 10, i.e. `categories_10 >= 3`). When it holds, the
check emits the triple-double message exactly once — on the first check,
when its key is not yet announced — records the key, and the double-double
branch contributes nothing (neither message nor key); when the key is
already announced, the check reduces to the tier loops alone. Announced
keys are never removed, so the triple-double message can never be emitted
twice for a player-game. -/
theorem c2_amended (llm : String → Option String)
    (stats : List (String × PlayerStats)) (a : List String) (player : String)
    (s : PlayerStats) (hs : lookupStats stats player = some s)
    (h3 : 3 ≤ categories10 s) :
    (tripleKey player ∉ a →
      check_stat_milestones llm stats a player =
        ((tierSections llm player s (tripleKey player :: a)).1,
         generate_historian_milestone_message llm "triple_double" player s.team s 0 0
           :: (tierSections llm player s (tripleKey player :: a)).2))
    ∧ (tripleKey player ∈ a →
      check_stat_milestones llm stats a player = tierSections llm player s a)
    ∧ a ⊆ (check_stat_milestones llm stats a player).1 := by
  have hddne : ¬ (2 ≤ categories10dd s ∧ categories10 s < 3) :=
    fun hc => absurd h3 (Nat.not_le.mpr hc.2)
  refine ⟨?_, ?_, check_stat_milestones_subset llm stats a player⟩
  · intro hnot
    have e1 : tripleSection llm player s a =
        (tripleKey player :: a,
         [generate_historian_milestone_message llm "triple_double" player s.team s 0 0]) := by
      unfold tripleSection
      rw [if_pos h3, if_neg hnot]
    have e2 : doubleSection llm player s (tripleKey player :: a) =
        (tripleKey player :: a, []) := by
      unfold doubleSection
      rw [if_neg hddne]
    unfold check_stat_milestones
    rw [hs]
    simp only [e1, e2, List.nil_append, List.singleton_append]
  · intro hmem
    have e1 : tripleSection llm player s a = (a, []) := by
      unfold tripleSection
      rw [if_pos h3, if_pos hmem]
    have e2 : doubleSection llm player s a = (a, []) := by
      unfold doubleSection
      rw [if_neg hddne]
    unfold check_stat_milestones
    rw [hs]
    simp only [e1, e2, List.nil_append]

/-- The spec's example triple-double line: 12 points, 14 rebounds,
11 assists. -/
def realTriple : PlayerStats := { pts := 12, reb := 14, ast := 11, team := "BOS" }

/-- C2 witness: a first check at 12/14/11 emits the triple-double message
(followed by the tier-loop output) and records the key. -/
theorem c2_witness :
    check_stat_milestones llmUnavailable [("A", realTriple)] [] "A" =
      ((tierSections llmUnavailable "A" realTriple [tripleKey "A"]).1,
       generate_historian_milestone_message llmUnavailable "triple_double" "A" "BOS" realTriple 0 0
         :: (tierSections llmUnavailable "A" realTriple [tripleKey "A"]).2) :=
  (c2_amended llmUnavailable [("A", realTriple)] [] "A" realTriple rfl
    (by decide)).1 (by decide)

/-! ## C3: scoring tiers -/

/-- A player first checked at 41 cumulative points (nothing else). -/
def pureScorer41 : PlayerStats := { pts := 41, team := "BOS" }

/-- C3 counterexample: a player whose first check happens at 41 points gets
exactly the 30-tier message (text "(30+ game)"), and the 40-tier key is
left unannounced — contradicting the claim that only the highest
newly-crossed tier (40) is emitted and that lower tiers are marked
announced. The 40-tier message only arrives on a later check. -/
theorem c3_counterexample :
    (check_stat_milestones llmUnavailable [("B", pureScorer41)] [] "B")
      = (["B_30pts"],
         [generate_historian_milestone_message llmUnavailable "scoring_milestone" "B" "BOS" pureScorer41 30 0])
    ∧ ptsKey "B" 40 ∉ (check_stat_milestones llmUnavailable [("B", pureScorer41)] [] "B").1
    ∧ (check_stat_milestones llmUnavailable [("B", { pureScorer41 with pts := 43 })] ["B_30pts"] "B").2
      = [generate_historian_milestone_message llmUnavailable "scoring_milestone" "B" "BOS" { pureScorer41 with pts := 43 } 40 0] := by
  refine ⟨rfl, by decide, rfl⟩

/-- C3 (amended): the scoring tiers are 30/40/50/60 — there is no 20 tier —
and each check emits at most one scoring-tier message: the lowest tier that
is reached and not yet announced, whose key alone is then recorded; higher
newly-crossed tiers are not emitted or marked on the same check, and each
tier fires at most once per player-game because announced keys are never
removed. (Stated for a player below the rebound/assist/block/steal
milestone thresholds, so no other milestone interferes.) -/
theorem c3_amended (llm : String → Option String)
    (stats : List (String × PlayerStats)) (a : List String) (player : String)
    (s : PlayerStats) (hs : lookupStats stats player = some s)
    (hreb : s.reb < 10) (hast : s.ast < 10) (hblk : s.blk < 5) (hstl : s.stl < 5) :
    (check_stat_milestones llm stats a player
      = match [30, 40, 50, 60].find? (fun t => decide (t ≤ s.pts ∧ ptsKey player t ∉ a)) with
        | some t => (ptsKey player t :: a,
            [generate_historian_milestone_message llm "scoring_milestone" player s.team s t 0])
        | none => (a, []))
    ∧ a ⊆ (check_stat_milestones llm stats a player).1 := by
  have hcat : categories10 s < 3 := by
    unfold categories10
    by_cases hp : 10 ≤ s.pts <;>
      simp [List.filter, hp, Nat.not_le.mpr hreb, Nat.not_le.mpr hast]
  have hblk10 : ¬ (10 ≤ s.blk) := by omega
  have hstl10 : ¬ (10 ≤ s.stl) := by omega
  have hdd : categories10dd s < 2 := by
    unfold categories10dd
    by_cases hp : 10 ≤ s.pts <;>
      simp [List.filter, hp, Nat.not_le.mpr hreb, Nat.not_le.mpr hast, hblk10, hstl10]
  have e1 : tripleSection llm player s a = (a, []) := by
    unfold tripleSection
    rw [if_neg (Nat.not_le.mpr hcat)]
  have e2 : doubleSection llm player s a = (a, []) := by
    unfold doubleSection
    rw [if_neg fun hc => absurd hc.1 (Nat.not_le.mpr hdd)]
  have e4 : ∀ b, tierLoop (blkKey player)
      (fun t => generate_historian_milestone_message llm "blocks_milestone" player s.team s t 0)
      s.blk b [5, 10, 15, 20] = (b, []) := fun b =>
    tierLoop_below (blkKey player) _ s.blk b [5, 10, 15, 20]
      (by intro t ht; simp at ht; omega)
  have e5 : ∀ b, tierLoop (stlKey player)
      (fun t => generate_historian_milestone_message llm "steals_milestone" player s.team s t 0)
      s.stl b [5, 10, 15, 20] = (b, []) := fun b =>
    tierLoop_below (stlKey player) _ s.stl b [5, 10, 15, 20]
      (by intro t ht; simp at ht; omega)
  refine ⟨?_, check_stat_milestones_subset llm stats a player⟩
  unfold check_stat_milestones
  rw [hs]
  simp only [e1, e2]
  unfold tierSections
  rw [tierLoop_eq_find]
  rcases hfind : [30, 40, 50, 60].find?
      (fun t => decide (t ≤ s.pts ∧ ptsKey player t ∉ a)) with _ | t <;>
    simp [e4, e5]

/-- C3 witness: the spec's own progression — at 33 points the 30-tier
message fires and records only the 30 key. -/
theorem c3_witness :
    check_stat_milestones llmUnavailable [("B", ({ pts := 33, team := "BOS" } : PlayerStats))] [] "B"
      = (["B_30pts"],
         [generate_historian_milestone_message llmUnavailable "scoring_milestone" "B" "BOS"
           { pts := 33, team := "BOS" } 30 0]) :=
  ((c3_amended llmUnavailable [("B", { pts := 33, team := "BOS" })] [] "B"
    { pts := 33, team := "BOS" } rfl (by decide) (by decide) (by decide) (by decide)).1).trans
    (by rfl)

/-! ## C4: big-lead tiers -/

/-- The highest tier among 30/25/20 that a (≥ 20) lead reaches: the tier
the descending loop of `check_big_lead_milestone` stops at. -/
def bigLeadTier (diff : Nat) : Nat :=
  if 30 ≤ diff then 30 else if 25 ≤ diff then 25 else 20

/-- C4 counterexample: in period 1 a 30-point lead announces the 30 tier
(only its own key); a later 22-point lead in the same period then announces
the 20 tier — contradicting the claim that announcing the highest tier also
marks the lower tiers for that side and period. -/
theorem c4_counterexample :
    check_big_lead_milestone llmUnavailable [] 52 22 "BOS" "NYK" 1
      = (["BOS_30lead_Q1"],
         some (generate_historian_milestone_message llmUnavailable "big_lead" "BOS" "NYK" {} 0 30))
    ∧ (check_big_lead_milestone llmUnavailable ["BOS_30lead_Q1"] 92 70 "BOS" "NYK" 1).2
      = some (generate_historian_milestone_message llmUnavailable "big_lead" "BOS" "NYK" {} 0 22) :=
  ⟨rfl, rfl⟩

/-- C4 (amended): each score-changing check considers only the highest tier
(among 30/25/20) reached by the current lead, keyed by (leading team, tier,
period): below 20 nothing happens; if that tier's key is announced the
check returns nothing (even if lower tiers are unannounced); otherwise it
announces exactly that one key and emits one message. Lower tiers are not
marked, and keys carry the period, so the same tier can fire again in a
later period. -/
theorem c4_amended (llm : String → Option String) (a : List String)
    (home_score away_score : Nat) (home_team away_team : String) (period : Nat) :
    (leadDiffN home_score away_score < 20 →
      check_big_lead_milestone llm a home_score away_score home_team away_team period
        = (a, none))
    ∧ (20 ≤ leadDiffN home_score away_score →
      (bigLeadKey (if away_score < home_score then home_team else away_team)
          (bigLeadTier (leadDiffN home_score away_score)) period ∈ a →
        check_big_lead_milestone llm a home_score away_score home_team away_team period
          = (a, none))
      ∧ (bigLeadKey (if away_score < home_score then home_team else away_team)
          (bigLeadTier (leadDiffN home_score away_score)) period ∉ a →
        check_big_lead_milestone llm a home_score away_score home_team away_team period
          = (bigLeadKey (if away_score < home_score then home_team else away_team)
              (bigLeadTier (leadDiffN home_score away_score)) period :: a,
             some (generate_historian_milestone_message llm "big_lead"
               (if away_score < home_score then home_team else away_team)
               (if away_score < home_score then away_team else home_team)
               {} 0 (leadDiffN home_score away_score))))) := by
  constructor
  · intro h20
    unfold check_big_lead_milestone
    rw [if_pos h20]
  · intro h20
    have hnot20 : ¬ leadDiffN home_score away_score < 20 := Nat.not_lt.mpr h20
    by_cases h30 : 30 ≤ leadDiffN home_score away_score
    · have ht : bigLeadTier (leadDiffN home_score away_score) = 30 := by
        unfold bigLeadTier
        rw [if_pos h30]
      rw [ht]
      constructor
      · intro hmem
        unfold check_big_lead_milestone bigLeadLoop
        rw [if_neg hnot20, if_pos h30, if_pos hmem]
      · intro hnot
        unfold check_big_lead_milestone bigLeadLoop
        rw [if_neg hnot20, if_pos h30, if_neg hnot]
    · by_cases h25 : 25 ≤ leadDiffN home_score away_score
      · have ht : bigLeadTier (leadDiffN home_score away_score) = 25 := by
          unfold bigLeadTier
          rw [if_neg h30, if_pos h25]
        rw [ht]
        constructor
        · intro hmem
          unfold check_big_lead_milestone
          rw [if_neg hnot20]
          simp only [bigLeadLoop]
          rw [if_neg h30, if_pos h25, if_pos hmem]
        · intro hnot
          unfold check_big_lead_milestone
          rw [if_neg hnot20]
          simp only [bigLeadLoop]
          rw [if_neg h30, if_pos h25, if_neg hnot]
      · have ht : bigLeadTier (leadDiffN home_score away_score) = 20 := by
          unfold bigLeadTier
          rw [if_neg h30, if_neg h25]
        rw [ht]
        constructor
        · intro hmem
          unfold check_big_lead_milestone
          rw [if_neg hnot20]
          simp only [bigLeadLoop]
          rw [if_neg h30, if_neg h25, if_pos h20, if_pos hmem]
        · intro hnot
          unfold check_big_lead_milestone
          rw [if_neg hnot20]
          simp only [bigLeadLoop]
          rw [if_neg h30, if_neg h25, if_pos h20, if_neg hnot]

/-- C4 witness: a fresh 27-point lead in period 2 announces exactly the 25
tier for the leading side. -/
theorem c4_witness :
    check_big_lead_milestone llmUnavailable [] 97 70 "BOS" "NYK" 2
      = (["BOS_25lead_Q2"],
         some (generate_historian_milestone_message llmUnavailable "big_lead" "BOS" "NYK" {} 0 27)) :=
  (((c4_amended llmUnavailable [] 97 70 "BOS" "NYK" 2).2 (by decide)).2 (by decide)).trans
    (by rfl)

/-! ## C7 / C10: what `generate_messages_from_play` can emit -/

/-- The personas the message generator uses. -/
def generatorBots : List String :=
  ["play_by_play", "hype_man", "referee", "ai_commentator", "stats_nerd"]

/-- The message types the main if/elif chain can emit. -/
def mainChainTypes : List String :=
  ["score", "hype", "freethrow", "block", "steal", "turnover", "miss", "rebound",
   "foul", "challenge", "timeout", "jumpball", "period", "ai_summary", "summary"]

/-- A message with one of the generator's personas and main-chain types. -/
def GeneratorMsg (m : Message) : Prop :=
  m.bot ∈ generatorBots ∧ m.type ∈ mainChainTypes

/-- Scoring-branch messages are generator messages. -/
theorem scoringPlayMsgs_bot_type (tf : TextFns) (play : Play) :
    ∀ m ∈ scoringPlayMsgs tf play, GeneratorMsg m := by
  intro m hm
  unfold scoringPlayMsgs at hm
  repeat' split at hm
  all_goals simp only [List.mem_cons, List.mem_singleton, List.not_mem_nil, or_false,
    false_or] at hm
  all_goals (try (obtain rfl | rfl := hm))
  all_goals exact ⟨by simp [generatorBots], by simp [mainChainTypes]⟩

/-- Free-throw-branch messages are generator messages. -/
theorem freeThrowMsgs_bot_type (tf : TextFns) (play : Play) :
    ∀ m ∈ freeThrowMsgs tf play, GeneratorMsg m := by
  intro m hm
  obtain rfl := List.mem_singleton.mp hm
  exact ⟨by simp [generatorBots], by simp [mainChainTypes]⟩

/-- Block-branch messages are generator messages. -/
theorem blockMsgs_bot_type (tf : TextFns) (play : Play) :
    ∀ m ∈ blockMsgs tf play, GeneratorMsg m := by
  intro m hm
  obtain rfl := List.mem_singleton.mp hm
  exact ⟨by simp [generatorBots], by simp [mainChainTypes]⟩

/-- Steal-branch messages are generator messages. -/
theorem stealMsgs_bot_type (tf : TextFns) (play : Play) :
    ∀ m ∈ stealMsgs tf play, GeneratorMsg m := by
  intro m hm
  obtain rfl := List.mem_singleton.mp hm
  exact ⟨by simp [generatorBots], by simp [mainChainTypes]⟩

/-- Turnover-branch messages are generator messages. -/
theorem turnoverMsgs_bot_type (tf : TextFns) (play : Play) :
    ∀ m ∈ turnoverMsgs tf play, GeneratorMsg m := by
  intro m hm
  unfold turnoverMsgs at hm
  split at hm
  · obtain rfl := List.mem_singleton.mp hm
    exact ⟨by simp [generatorBots], by simp [mainChainTypes]⟩
  · exact absurd hm (List.not_mem_nil m)

/-- Missed-shot-branch messages are generator messages. -/
theorem missedShotMsgs_bot_type (tf : TextFns) (play : Play) :
    ∀ m ∈ missedShotMsgs tf play, GeneratorMsg m := by
  intro m hm
  unfold missedShotMsgs at hm
  split at hm
  · obtain rfl := List.mem_singleton.mp hm
    exact ⟨by simp [generatorBots], by simp [mainChainTypes]⟩
  · exact absurd hm (List.not_mem_nil m)

/-- Rebound-branch messages are generator messages. -/
theorem reboundMsgs_bot_type (tf : TextFns) (play : Play) :
    ∀ m ∈ reboundMsgs tf play, GeneratorMsg m := by
  intro m hm
  obtain rfl := List.mem_singleton.mp hm
  exact ⟨by simp [generatorBots], by simp [mainChainTypes]⟩

/-- Foul-branch messages are generator messages. -/
theorem foulMsgs_bot_type (tf : TextFns) (play : Play) :
    ∀ m ∈ foulMsgs tf play, GeneratorMsg m := by
  intro m hm
  obtain rfl := List.mem_singleton.mp hm
  exact ⟨by simp [generatorBots], by simp [mainChainTypes]⟩

/-- Challenge-branch messages are generator messages. -/
theorem challengeMsgs_bot_type (play : Play) :
    ∀ m ∈ challengeMsgs play, GeneratorMsg m := by
  intro m hm
  unfold challengeMsgs at hm
  repeat' split at hm
  all_goals (obtain rfl := List.mem_singleton.mp hm)
  all_goals exact ⟨by simp [generatorBots], by simp [mainChainTypes]⟩

/-- Timeout-branch messages are generator messages. -/
theorem timeoutMsgs_bot_type (play : Play) :
    ∀ m ∈ timeoutMsgs play, GeneratorMsg m := by
  intro m hm
  obtain rfl := List.mem_singleton.mp hm
  exact ⟨by simp [generatorBots], by simp [mainChainTypes]⟩

/-- Jump-ball-branch messages are generator messages. -/
theorem jumpballMsgs_bot_type (play : Play) :
    ∀ m ∈ jumpballMsgs play, GeneratorMsg m := by
  intro m hm
  obtain rfl := List.mem_singleton.mp hm
  exact ⟨by simp [generatorBots], by simp [mainChainTypes]⟩

/-- Period-branch messages are generator messages. -/
theorem periodMsgs_bot_type (tf : TextFns) (play : Play) (gi : GameInfo) :
    ∀ m ∈ periodMsgs tf play gi, GeneratorMsg m := by
  intro m hm
  unfold periodMsgs at hm
  repeat' split at hm
  all_goals simp only [List.mem_cons, List.mem_singleton, List.not_mem_nil, or_false,
    false_or] at hm
  all_goals (try (obtain rfl | rfl := hm))
  all_goals exact ⟨by simp [generatorBots], by simp [mainChainTypes]⟩

/-- Every message of the main chain has a generator persona and a
main-chain type (in particular, never type "lead_change", "milestone" or
bot "historian"). -/
theorem mainMsgs_bot_type (tf : TextFns) (play : Play) (gi : GameInfo) :
    ∀ m ∈ mainMsgs tf play gi, GeneratorMsg m := by
  intro m hm
  rw [mainMsgs] at hm
  by_cases h1 : play.scoring_play ∧ play.score_value.getD 0 ≠ 0
  · rw [if_pos h1] at hm
    exact scoringPlayMsgs_bot_type tf play m hm
  rw [if_neg h1] at hm
  by_cases h2 : strContains (lowerStr play.type) "free throw"
      ∧ strContains (lowerStr play.text) "makes"
  · rw [if_pos h2] at hm
    exact freeThrowMsgs_bot_type tf play m hm
  rw [if_neg h2] at hm
  by_cases h3 : strContains (lowerStr play.type) "block"
      ∨ (strContains (lowerStr play.text) "blocks" ∧ ¬ play.scoring_play)
  · rw [if_pos h3] at hm
    exact blockMsgs_bot_type tf play m hm
  rw [if_neg h3] at hm
  by_cases h4 : strContains (lowerStr play.type) "steal"
      ∨ strContains (lowerStr play.text) "steal"
  · rw [if_pos h4] at hm
    exact stealMsgs_bot_type tf play m hm
  rw [if_neg h4] at hm
  by_cases h5 : strContains (lowerStr play.type) "turnover"
      ∨ strContains (lowerStr play.text) "turnover"
  · rw [if_pos h5] at hm
    exact turnoverMsgs_bot_type tf play m hm
  rw [if_neg h5] at hm
  by_cases h6 : play.shooting_play ∧ ¬ play.scoring_play
      ∧ ¬ strContains (lowerStr play.text) "blocks"
  · rw [if_pos h6] at hm
    exact missedShotMsgs_bot_type tf play m hm
  rw [if_neg h6] at hm
  by_cases h7 : strContains (lowerStr play.type) "rebound"
  · rw [if_pos h7] at hm
    exact reboundMsgs_bot_type tf play m hm
  rw [if_neg h7] at hm
  by_cases h8 : strContains (lowerStr play.type) "foul"
  · rw [if_pos h8] at hm
    exact foulMsgs_bot_type tf play m hm
  rw [if_neg h8] at hm
  by_cases h9 : strContains (lowerStr play.type) "challenge"
      ∨ strContains (lowerStr play.type) "replay"
      ∨ strContains (lowerStr play.type) "review"
  · rw [if_pos h9] at hm
    exact challengeMsgs_bot_type play m hm
  rw [if_neg h9] at hm
  by_cases h10 : strContains (lowerStr play.type) "timeout"
  · rw [if_pos h10] at hm
    exact timeoutMsgs_bot_type play m hm
  rw [if_neg h10] at hm
  by_cases h11 : strContains (lowerStr play.type) "jumpball"
      ∨ strContains (lowerStr play.type) "jump ball"
  · rw [if_pos h11] at hm
    exact jumpballMsgs_bot_type play m hm
  rw [if_neg h11] at hm
  by_cases h12 : strContains (lowerStr play.type) "period"
  · rw [if_pos h12] at hm
    exact periodMsgs_bot_type tf play gi m hm
  rw [if_neg h12] at hm
  exact absurd hm (List.not_mem_nil m)

/-- Every message of the lead/tie section is a hype_man "lead_change" or
"tie" message. -/
theorem leadTieMsgs_bot_type (gi : GameInfo) (hs as ph pa : Nat) :
    ∀ m ∈ leadTieMsgs gi hs as ph pa,
      m.bot = "hype_man" ∧ (m.type = "lead_change" ∨ m.type = "tie") := by
  intro m hm
  simp only [leadTieMsgs] at hm
  repeat' split at hm
  all_goals simp_all

/-- Every message of the largest-lead section is a stats_nerd
"largest_lead" message. -/
theorem largestLeadMsgs_bot_type (gi : GameInfo) (hs as : Nat) (ll : LargestLeads) :
    ∀ m ∈ (largestLeadMsgs gi hs as ll).1,
      m.bot = "stats_nerd" ∧ m.type = "largest_lead" := by
  intro m hm
  simp only [largestLeadMsgs] at hm
  repeat' split at hm
  all_goals (try simp_all)
  all_goals (rcases hm with rfl | rfl <;> exact ⟨rfl, rfl⟩)

/-- Every message of the final-recap section is an ai_commentator
"ai_summary" message. -/
theorem finalRecapMsgs_bot_type (tf : TextFns) (gi : GameInfo)
    (hs as : Nat) (igf : Bool) :
    ∀ m ∈ finalRecapMsgs tf gi hs as igf,
      m.bot = "ai_commentator" ∧ m.type = "ai_summary" := by
  intro m hm
  simp only [finalRecapMsgs] at hm
  repeat' split at hm
  all_goals simp_all

/-- The metadata pass changes neither persona nor type. -/
theorem setMeta_bot_type (gi : GameInfo) (play : Play) (m : Message) :
    (setMeta gi play m).bot = m.bot ∧ (setMeta gi play m).type = m.type :=
  ⟨rfl, rfl⟩

/-- The number of lead-change messages emitted by the lead/tie section is 1
exactly on a sign flip of `away - home` and 0 otherwise. -/
theorem leadTieMsgs_lead_change_count (gi : GameInfo) (hs as ph pa : Nat) :
    (leadTieMsgs gi hs as ph pa).countP (fun m => m.type == "lead_change")
      = if (0 < (pa : Int) - (ph : Int) ∧ (as : Int) - (hs : Int) < 0)
           ∨ ((pa : Int) - (ph : Int) < 0 ∧ 0 < (as : Int) - (hs : Int))
        then 1 else 0 := by
  unfold leadTieMsgs
  by_cases h1 : 0 < (pa : Int) - (ph : Int) ∧ (as : Int) - (hs : Int) < 0
  · rw [if_pos h1, if_pos (Or.inl h1)]
    rfl
  · rw [if_neg h1]
    by_cases h2 : (pa : Int) - (ph : Int) < 0 ∧ 0 < (as : Int) - (hs : Int)
    · rw [if_pos h2, if_pos (Or.inr h2)]
      rfl
    · rw [if_neg h2]
      have hflip : ¬ ((0 < (pa : Int) - (ph : Int) ∧ (as : Int) - (hs : Int) < 0)
          ∨ ((pa : Int) - (ph : Int) < 0 ∧ 0 < (as : Int) - (hs : Int))) := by tauto
      rw [if_neg hflip]
      by_cases h3 : (as : Int) - (hs : Int) = 0 ∧ (pa : Int) - (ph : Int) ≠ 0
      · rw [if_pos h3]
        rfl
      · rw [if_neg h3]
        rfl

/-- Every message produced for one play has a generator persona and a
generator type — in particular the generator never emits type "milestone"
or bot "historian" (those come only from the Historian milestone block). -/
theorem generate_messages_bot_type (tf : TextFns) (play : Play) (gi : GameInfo)
    (prev_play : Option Play) (ll : LargestLeads) (lc : Nat) (igf : Bool) :
    ∀ m ∈ (generate_messages_from_play tf play gi prev_play ll lc igf).1,
      m.bot ∈ generatorBots
      ∧ m.type ∈ mainChainTypes ++ ["lead_change", "tie", "largest_lead"] := by
  intro m hm
  simp only [generate_messages_from_play] at hm
  obtain ⟨m0, hm0, rfl⟩ := List.mem_map.mp hm
  rw [(setMeta_bot_type gi play m0).1, (setMeta_bot_type gi play m0).2]
  rcases List.mem_append.mp hm0 with hmain | hrest
  · rcases List.mem_append.mp hmain with hmain | hsc
    · obtain ⟨hb, ht⟩ := mainMsgs_bot_type tf play gi m0 hmain
      exact ⟨hb, List.mem_append.mpr (Or.inl ht)⟩
    · by_cases hscoring : play.scoring_play
      · rw [if_pos hscoring] at hsc
        rcases List.mem_append.mp hsc with hlt | hll
        · obtain ⟨hb, ht⟩ := leadTieMsgs_bot_type gi play.home_score play.away_score
            (prevHomeScore prev_play) (prevAwayScore prev_play) m0 hlt
          refine ⟨by simp [hb, generatorBots], ?_⟩
          rcases ht with ht | ht <;> simp [ht]
        · obtain ⟨hb, ht⟩ := largestLeadMsgs_bot_type gi play.home_score play.away_score ll m0 hll
          exact ⟨by simp [hb, generatorBots], by simp [ht]⟩
      · rw [if_neg hscoring] at hsc
        simp at hsc
  · obtain ⟨hb, ht⟩ := finalRecapMsgs_bot_type tf gi play.home_score play.away_score igf m0 hrest
    refine ⟨by simp [hb, generatorBots], by simp [ht, mainChainTypes]⟩

/-- No main-chain or recap type is "lead_change" or "milestone". -/
theorem mainChainTypes_ne : ∀ t ∈ mainChainTypes, t ≠ "lead_change" ∧ t ≠ "milestone" := by
  decide

/-- No generator type at all is "milestone". -/
theorem generatorTypes_ne_milestone :
    ∀ t ∈ mainChainTypes ++ ["lead_change", "tie", "largest_lead"], t ≠ "milestone" := by
  decide

/-- No generator persona is "historian". -/
theorem generatorBots_ne_historian : ∀ b ∈ generatorBots, b ≠ "historian" := by
  decide

/-- The main chain never emits a lead-change message. -/
theorem mainMsgs_lead_change_count (tf : TextFns) (play : Play) (gi : GameInfo) :
    (mainMsgs tf play gi).countP (fun m => m.type == "lead_change") = 0 := by
  rw [List.countP_eq_zero]
  intro m hm
  have ht := (mainMsgs_bot_type tf play gi m hm).2
  simp only [beq_iff_eq]
  exact (mainChainTypes_ne m.type ht).1

/-- The largest-lead section never emits a lead-change message. -/
theorem largestLeadMsgs_lead_change_count (gi : GameInfo) (hs as : Nat)
    (ll : LargestLeads) :
    ((largestLeadMsgs gi hs as ll).1).countP (fun m => m.type == "lead_change") = 0 := by
  rw [List.countP_eq_zero]
  intro m hm
  have ht := (largestLeadMsgs_bot_type gi hs as ll m hm).2
  simp [ht]

/-- The final-recap section never emits a lead-change message. -/
theorem finalRecapMsgs_lead_change_count (tf : TextFns) (gi : GameInfo)
    (hs as : Nat) (igf : Bool) :
    (finalRecapMsgs tf gi hs as igf).countP (fun m => m.type == "lead_change") = 0 := by
  rw [List.countP_eq_zero]
  intro m hm
  have ht := (finalRecapMsgs_bot_type tf gi hs as igf m hm).2
  simp [ht]

/-- The game-info pair used in the concrete lead-change scenario. -/
def demoGameInfo : GameInfo := ⟨"HOM", "AWY"⟩

/-- A made jump shot at the given score. -/
def shotPlay (o h a : Nat) : Play :=
  { order := o, period := 1, clock := "5:00", home_score := h, away_score := a
    teamAbbr := "HOM", type := "Jump Shot", text := "", scoring_play := true
    score_value := some 3, shooting_play := true }

/-- C7: the generator emits a lead-change message exactly on a sign flip of
the score difference `away - home` between the previous play and a scoring
play — one message per flip, none on a play that ties the game or breaks a
tie. Concretely, for (home, away) going (10,12) → (13,12) → (13,15) exactly
one lead change fires on each transition, and none fires into or out of a
tie. -/
theorem lead_change_sign_flip_theorem :
    (∀ tf play gi prev_play ll lc igf,
      ((generate_messages_from_play tf play gi prev_play ll lc igf).1.countP
          (fun m => m.type == "lead_change"))
        = if play.scoring_play
              ∧ ((0 < (prevAwayScore prev_play : Int) - (prevHomeScore prev_play : Int)
                    ∧ (play.away_score : Int) - (play.home_score : Int) < 0)
                 ∨ ((prevAwayScore prev_play : Int) - (prevHomeScore prev_play : Int) < 0
                    ∧ 0 < (play.away_score : Int) - (play.home_score : Int)))
          then 1 else 0)
    ∧ ((generate_messages_from_play trivialTextFns (shotPlay 2 13 12) demoGameInfo
          (some (shotPlay 1 10 12)) {} 0 false).1.countP
        (fun m => m.type == "lead_change")) = 1
    ∧ ((generate_messages_from_play trivialTextFns (shotPlay 3 13 15) demoGameInfo
          (some (shotPlay 2 13 12)) {} 0 false).1.countP
        (fun m => m.type == "lead_change")) = 1
    ∧ ((generate_messages_from_play trivialTextFns (shotPlay 3 15 15) demoGameInfo
          (some (shotPlay 2 13 12)) {} 0 false).1.countP
        (fun m => m.type == "lead_change")) = 0
    ∧ ((generate_messages_from_play trivialTextFns (shotPlay 4 17 15) demoGameInfo
          (some (shotPlay 3 15 15)) {} 0 false).1.countP
        (fun m => m.type == "lead_change")) = 0 := by
  refine ⟨?_, by rfl, by rfl, by rfl, by rfl⟩
  intro tf play gi prev_play ll lc igf
  have hmeta : ((fun m : Message => m.type == "lead_change") ∘ setMeta gi play)
      = (fun m : Message => m.type == "lead_change") := rfl
  rw [generate_messages_from_play]
  simp only [List.countP_map, List.countP_append]
  rw [hmeta]
  rw [mainMsgs_lead_change_count, finalRecapMsgs_lead_change_count]
  by_cases hsc : play.scoring_play = true
  · rw [if_pos hsc, List.countP_append, largestLeadMsgs_lead_change_count,
      leadTieMsgs_lead_change_count]
    by_cases hflip : (0 < (prevAwayScore prev_play : Int) - (prevHomeScore prev_play : Int)
          ∧ (play.away_score : Int) - (play.home_score : Int) < 0)
        ∨ ((prevAwayScore prev_play : Int) - (prevHomeScore prev_play : Int) < 0
          ∧ 0 < (play.away_score : Int) - (play.home_score : Int))
    · rw [if_pos hflip, if_pos ⟨hsc, hflip⟩]
    · rw [if_neg hflip, if_neg (fun hc => hflip hc.2)]
  · rw [if_neg hsc]
    rw [if_neg (fun hc => hsc hc.1)]
    rfl

/-- C10: with zero active viewers, processing a newly delivered play in the
incremental path updates no player ledger, announces no milestone key, and
produces no milestone (historian) message — the Historian block and the
LLM-enhancement pass are both gated on a positive viewer count. -/
theorem viewer_gate_theorem (tf : TextFns) (gi : GameInfo) (st : LiveGameState)
    (play : Play) (compare_play : Option Play) :
    ((processNewPlay tf gi 0 st play compare_play).1.playerStats = st.playerStats)
    ∧ ((processNewPlay tf gi 0 st play compare_play).1.announced = st.announced)
    ∧ ∀ m ∈ (processNewPlay tf gi 0 st play compare_play).2,
        m.type ≠ "milestone" ∧ m.bot ≠ "historian" := by
  refine ⟨rfl, rfl, ?_⟩
  intro m hm
  have hmsgs : (processNewPlay tf gi 0 st play compare_play).2
      = (generate_messages_from_play tf play gi compare_play st.largestLeads
          st.leadChangeCount false).1.map
        (fun m => { m with action_number := play.order }) := rfl
  rw [hmsgs] at hm
  obtain ⟨m0, hm0, rfl⟩ := List.mem_map.mp hm
  obtain ⟨hb, ht⟩ := generate_messages_bot_type tf play gi compare_play
    st.largestLeads st.leadChangeCount false m0 hm0
  exact ⟨generatorTypes_ne_milestone m0.type ht, generatorBots_ne_historian m0.bot hb⟩

end NbaStats
